import Mathlib

/-!
Verification development for the pystacklang front-end
(lexer / parser / flow resolver / type checker pipeline).

The Python sources `lang.py` and `typechecker.py` are embedded shallowly:
pure functions become Lean functions, the stateful coroutines become
explicit state-passing step functions, Python exceptions become an
`Except` monad over an explicit error inductive.  The helper modules
`classes.py`, `lexer.py`, `errors.py` and `engine.py` are not part of the
sources; the few definitions needed from them (the `Type` record, the
token record, the error taxonomy, the driving loops) are modelled from
the specification and marked as such in their doc comments.

Representation conventions:
* Python lists used as stacks (`append` / `pop()` at the end) are
  represented as Lean lists with the TOP AT THE HEAD; `append x` is
  `x :: s`, `pop()` is un-cons, `s[-1]` is `s.head`, `s[-2]` is the
  second element.  Iterations that walk a Python list from index 0
  (bottom) therefore walk the Lean list reversed.
* Object identity of tokens matters (the parser mutates tokens in
  place), so tokens live in a heap `List TokenRec` and are referred to
  by their index ("token id").
-/

namespace PyStackLang

/-- Modelled from the spec: the `Type` record of the missing
`classes.py` — "An immutable record `(name, byte_size, parent)`.
`parent` encodes pointer indirection." -/
inductive Ty where
  | mk (name : String) (size : Nat) (parent : Option Ty)
  deriving Repr

/-- Decidable structural (Lean-level) equality for `Ty`; this is the
meta-level equality of the embedding, distinct from the Python
`Type.__eq__` wildcard equality `tyEq` below. -/
def Ty.decEq : (a b : Ty) → Decidable (a = b)
  | .mk n1 s1 p1, .mk n2 s2 p2 =>
    match String.decEq n1 n2 with
    | isFalse h => isFalse (by simp_all)
    | isTrue h1 =>
      match Nat.decEq s1 s2 with
      | isFalse h => isFalse (by simp_all)
      | isTrue h2 =>
        match p1, p2 with
        | none, none => isTrue (by simp_all)
        | none, some _ => isFalse (by simp_all)
        | some _, none => isFalse (by simp_all)
        | some a, some b =>
          match Ty.decEq a b with
          | isTrue h3 => isTrue (by simp_all)
          | isFalse h3 => isFalse (by simp_all)

instance : DecidableEq Ty := Ty.decEq

instance {ε α : Type} [DecidableEq ε] [DecidableEq α] :
    DecidableEq (Except ε α) := fun a b =>
  match a, b with
  | .ok x, .ok y => if h : x = y then isTrue (by rw [h]) else isFalse (by simp [h])
  | .ok _, .error _ => isFalse (by simp)
  | .error _, .ok _ => isFalse (by simp)
  | .error x, .error y => if h : x = y then isTrue (by rw [h]) else isFalse (by simp [h])

/-- Modelled from the spec: `Type` equality of the missing `classes.py`
— "Equality: `ANY` equals anything; otherwise structural equality of
`(name, parent)`." -/
def tyEq : Ty → Ty → Bool
  | .mk n1 _ p1, .mk n2 _ p2 =>
    (n1 == "ANY" || n2 == "ANY") ||
    (n1 == n2 &&
      match p1, p2 with
      | none, none => true
      | some a, some b => tyEq a b
      | _, _ => false)

/-- `ANY = Type('ANY', 8)` (typechecker.py line 42). -/
def ANY : Ty := .mk "ANY" 8 none

/-- `CHAR = Type('CHAR', 1)` (typechecker.py line 43). -/
def CHAR : Ty := .mk "CHAR" 1 none

/-- `INT = Type('INT', 8)` (typechecker.py line 44). -/
def INT : Ty := .mk "INT" 8 none

/-- `PTR = Type('PTR', 8)` (typechecker.py line 45). -/
def PTR : Ty := .mk "PTR" 8 none

/-- `BOOL = Type('BOOL', 4)` (typechecker.py line 46). -/
def BOOL : Ty := .mk "BOOL" 4 none

/-- Modelled from the spec: `Type.__getitem__` of the missing
`classes.py` — "`PTR[T]` means a `Type` whose `parent` is `T`".
`ptrIdx T` is the value of the Python expression `PTR[T]`. -/
def ptrIdx (t : Ty) : Ty := .mk "PTR" 8 (some t)

/-- The error taxonomy.  The named constructors follow the classes of
the missing `errors.py`, modelled from the spec (§7); `cause` arguments
mirror the chained-cause arguments at the raise sites, with `NoCause`
standing for an omitted cause.  The constructors `RuntimeError`,
`IndexError`, `KeyError`, `ValueError`, `AttributeError`,
`AssertionError` and `StopIteration` model the corresponding raw Python
exceptions, which are NOT part of the language error family.  `FuelOut`
is an artifact of the fuel-based driving loop and is never produced in
any run appearing in a theorem below. -/
inductive Exc where
  | NoCause
  | UnknownToken (info : Nat)
  | InvalidSyntax (info : Nat)
  | InvalidType (info : Nat) (cause : Exc)
  | NotEnoughTokens (info : Nat)
  | SymbolRedefined (info : Nat)
  | FileError (info : Nat)
  | MissingToken (info : Nat) (cause : Exc)
  | AddedToken (info : Nat) (cause : Exc)
  | StackNotEmpty (info : Nat)
  | ProcedureError (info : Nat) (cause : Exc)
  | IfException (info : Nat)
  | ElifException (info : Nat)
  | ElseException (info : Nat)
  | WhileException (info : Nat)
  | TypeCheckerException (info : Nat)
  | Reporting (info : Nat) (cause : Exc)
  | RuntimeError
  | IndexError
  | KeyError
  | ValueError
  | AttributeError
  | AssertionError
  | StopIteration
  | FuelOut
  deriving DecidableEq, Repr

/-- Modelled from the spec: membership in the language error family
(`LangExceptions` of the missing `errors.py`, spec §7); the raw Python
exception classes are not members. -/
def isLangExceptions : Exc → Bool
  | .RuntimeError | .IndexError | .KeyError | .ValueError
  | .AttributeError | .AssertionError | .StopIteration
  | .FuelOut | .NoCause => false
  | _ => true

/-- `derefType` (typechecker.py lines 55-65), translated over the
spec-modelled `Ty` chain: copy the chain, walk `p`, `n` to the deepest
node, raise `ValueError` when `p == n` (Python `==`, i.e. the wildcard
equality `tyEq`), otherwise cut the deepest node off (`p.parent = None`)
and return the modified root. -/
def derefType : Ty → Except Exc Ty
  | .mk _ _ none => .error .ValueError
  | .mk n s (some c) =>
    match c with
    | .mk _ _ none =>
      if tyEq (.mk n s (some c)) c then .error .ValueError
      else .ok (.mk n s none)
    | .mk cn cs (some cc) => do
      let c' ← derefType (.mk cn cs (some cc))
      .ok (.mk n s (some c'))

/-- The closed token-kind enumeration: the union of the enums
`OpTypes`, `Intrinsics`, `Operands`, `FlowControl` and `PreprocTypes`
of the missing `lexer.py`, with the members used by `lang.py` and
`typechecker.py` (spec §4.2). -/
inductive TokTy where
  | OP_PUSH | OP_CHAR | OP_STRING | OP_BOOL | OP_WORD | OP_PUSHMEMORY
  | OP_DUMP | OP_UDUMP | OP_CDUMP | OP_HEXDUMP
  | OP_SYSCALL | OP_SYSCALL1 | OP_SYSCALL2 | OP_SYSCALL3
  | OP_SYSCALL4 | OP_SYSCALL5 | OP_SYSCALL6
  | OP_RSYSCALL1 | OP_RSYSCALL2 | OP_RSYSCALL3
  | OP_RSYSCALL4 | OP_RSYSCALL5 | OP_RSYSCALL6
  | OP_EXIT
  | OP_LOAD | OP_LOAD16 | OP_LOAD32 | OP_LOAD64
  | OP_STORE | OP_STORE16 | OP_STORE32 | OP_STORE64
  | OP_DROP | OP_DUP | OP_DUP2 | OP_SWAP | OP_SWAP2
  | OP_OVER | OP_ROT | OP_RROT | OP_ARGC | OP_ARGV
  | OP_PLUS | OP_MINUS | OP_MUL | OP_DIV | OP_MOD | OP_DIVMOD
  | OP_INCREMENT | OP_DECREMENT
  | OP_BLSH | OP_BRSH | OP_BAND | OP_BOR | OP_BXOR
  | OP_EQ | OP_NE | OP_GT | OP_GE | OP_LT | OP_LE
  | OP_IF | OP_ELIF | OP_ELSE | OP_WHILE | OP_DO | OP_END
  | OP_LABEL | OP_LET | OP_WITH
  | MACRO | CALL | PROC | IN | OUT | MEMORY | INCLUDE | CAST
  deriving DecidableEq, Repr

/-- `FlowInfo` (modelled from the spec §3 for the missing `classes.py`):
the linkage record attached to flow tokens.  Links are token ids into
the heap.  `data` holds token ids (the captured name list of `let`,
the body of a `memory` declaration). -/
structure FlowData where
  root : Nat
  prev : Option Nat := none
  next : Option Nat := none
  endTok : Option Nat := none
  haselse : Bool := false
  data : List Nat := []
  deriving DecidableEq, Repr

/-- `Procedure` (modelled from the spec §3 for the missing `classes.py`,
fields as constructed by `procedureFactory` in lang.py): `args` and
`out` pair the signature token ids with their resolved types, `body`
is the list of body token ids. -/
structure ProcRec where
  opener : Nat
  closer : Option Nat := none
  name : String
  args : List (Nat × Ty) := []
  out : List (Nat × Ty) := []
  body : List Nat := []
  deriving DecidableEq, Repr

/-- The kind-dependent `value` payload of a token (spec §3). -/
inductive TokenVal where
  | vnone
  | vint (i : Int)
  | vstr (s : String)
  | vbool (b : Bool)
  | vty (t : Ty)
  | vflow (f : FlowData)
  | vproc (p : ProcRec)
  deriving DecidableEq, Repr

/-- The token record (modelled from the spec §3 for the missing
`classes.py`).  `info` is an abstract span id standing for the
`TokenInfo` of the originating lexical token and `infoStr` is that
lexical token's spelling (`token.info.string`). -/
structure TokenRec where
  type : TokTy
  value : TokenVal := .vnone
  info : Nat := 0
  infoStr : String := ""
  position : Nat := 0
  deriving DecidableEq, Repr

/-- Fallback token used by total heap lookup; never reached in the runs
appearing in the theorems below. -/
def dummyTok : TokenRec := { type := .OP_LABEL }

/-- Heap lookup by token id (tokens are shared by reference in Python;
the heap models object identity). -/
def getTok (h : List TokenRec) (i : Nat) : TokenRec := h.getD i dummyTok

/-- Heap update by token id. -/
def setTok (h : List TokenRec) (i : Nat) (t : TokenRec) : List TokenRec :=
  h.set i t

/-- Read a token value as `FlowInfo`; `default` is only reached where
Python would raise `AttributeError`, which no traced run does. -/
def getFlowD : TokenVal → FlowData
  | .vflow f => f
  | _ => { root := 0 }

/-- Read a token value as a `FlowInfo`, raising like Python's attribute
access would on a wrong payload. -/
def getVFlowE : TokenVal → Except Exc FlowData
  | .vflow f => .ok f
  | _ => .error .AttributeError

/-- Read a token value as a `Procedure`. -/
def getVProcE : TokenVal → Except Exc ProcRec
  | .vproc p => .ok p
  | _ => .error .AttributeError

/-- Read a token value as a string (the payload of `WORD`, `CALL`,
`LABEL` and `STRING` tokens). -/
def pyKey : TokenVal → String
  | .vstr s => s
  | _ => ""

/-- Read a token value as a type descriptor (the payload of `CAST`). -/
def pyTyOf : TokenVal → Ty
  | .vty t => t
  | _ => ANY

/-- The abstract stack of the type checker: `(originating token, type)`
pairs, top at the head. -/
abbrev Stack := List (TokenRec × Ty)

/-- Python `list.pop()` on a stack-like list: `IndexError` when empty. -/
def pyPopS : Stack → Except Exc ((TokenRec × Ty) × Stack)
  | [] => .error .IndexError
  | a :: r => .ok (a, r)

/-- Python `stack[-1]`: `IndexError` when empty. -/
def pyHeadS : Stack → Except Exc (TokenRec × Ty)
  | [] => .error .IndexError
  | a :: _ => .ok a

/-- Python `list.pop()` on a list of stacks (`block_stack` etc.). -/
def pyPopL : List Stack → Except Exc (Stack × List Stack)
  | [] => .error .IndexError
  | a :: r => .ok (a, r)

/-- Python `l[-1]` on a list of stacks. -/
def pyHeadL : List Stack → Except Exc Stack
  | [] => .error .IndexError
  | a :: _ => .ok a

/-- Python `l[i]` on a list of popped types: `IndexError` out of range. -/
def pyGetTy (l : List Ty) (i : Nat) : Except Exc Ty :=
  match l.get? i with
  | some t => .ok t
  | none => .error .IndexError

/-- Python `l[i]` on a list of `(token, type)` pairs. -/
def pyGetPair (l : List (TokenRec × Ty)) (i : Nat) :
    Except Exc (TokenRec × Ty) :=
  match l.get? i with
  | some t => .ok t
  | none => .error .IndexError

/-- Association-list read with Python `dict` lookup semantics. -/
def dictGet {α : Type} (d : List (String × α)) (k : String) : Option α :=
  match d.find? (fun e => e.1 == k) with
  | some e => some e.2
  | none => none

/-- Association-list write with Python `dict` assignment semantics
(overwrite in place when present, append otherwise). -/
def dictSet {α : Type} (d : List (String × α)) (k : String) (v : α) :
    List (String × α) :=
  match d with
  | [] => [(k, v)]
  | e :: rest => if e.1 == k then (k, v) :: rest else e :: dictSet rest k v

/-- The state of `_TypeChecker` (typechecker.py lines 85-93).  The
fields `last_case` and `block_exit` are omitted: `last_case` is only
read back by `run_single` (not embedded) and `block_exit` is never
read; neither influences any behaviour of `run`. -/
structure TCSt where
  stack : Stack := []
  block_stack : List Stack := []
  block_origin_stack : List Stack := []
  locals : List (List (String × (TokenRec × Ty))) := []
  procedures : List (String × ProcRec) := []
  deriving DecidableEq, Repr

/-- `_TypeChecker.check_length` (typechecker.py lines 100-102). -/
def check_length (n : Nat) (token : TokenRec) (s : Stack) :
    Except Exc Unit :=
  if s.length < n then .error (.NotEnoughTokens token.info) else .ok ()

/-- `_TypeChecker.type_check` (typechecker.py lines 110-119) in its
always-consuming form (every call in `run` consumes). -/
def type_check (expected : Ty) (token : TokenRec) (s : Stack) :
    Except Exc ((TokenRec × Ty) × Stack) := do
  let (a, s') ← pyPopS s
  if tyEq expected ANY then .ok (a, s')
  else if ¬ tyEq a.2 expected then
    .error (.Reporting a.1.info (.InvalidType token.info .NoCause))
  else .ok (a, s')

/-- Iteration of `_TypeChecker.check` over the expected-type list. -/
def checkGo (args : List Ty) (token : TokenRec) (s : Stack)
    (acc : List (TokenRec × Ty)) :
    Except Exc (List (TokenRec × Ty) × Stack) :=
  match args with
  | [] => .ok (acc.reverse, s)
  | e :: rest => do
    let (a, s') ← type_check e token s
    checkGo rest token s' (a :: acc)

/-- `_TypeChecker.check` (typechecker.py lines 131-136): length check,
then pop-and-type-check each expected type in list order (first
expected type against the top of the stack). -/
def check (args : List Ty) (token : TokenRec) (s : Stack) :
    Except Exc (List (TokenRec × Ty) × Stack) := do
  let _ ← check_length args.length token s
  checkGo args token s []

/-- The comparison loop of `_TypeChecker.check_same` (`for i in
range(1, length)`). -/
def checkSameGo (n : Nat) (aTok : TokenRec) (expected : Ty)
    (token : TokenRec) (s : Stack) : Except Exc (Ty × Stack) :=
  match n with
  | 0 => .ok (expected, s)
  | m + 1 => do
    let (b, s') ← pyPopS s
    if tyEq b.2 expected then checkSameGo m aTok expected token s'
    else
      .error (.Reporting b.1.info (.Reporting aTok.info
        (.InvalidType token.info .NoCause)))

/-- `_TypeChecker.check_same` (typechecker.py lines 121-128). -/
def check_same (length : Nat) (token : TokenRec) (s : Stack) :
    Except Exc (Ty × Stack) := do
  let _ ← check_length length token s
  let (a, s') ← pyPopS s
  checkSameGo (length - 1) a.1 a.2 token s'

/-- One pop of the `check_comb` loop: keep the still-valid cases whose
type at this position equals (Python `==`, i.e. `tyEq`) the popped
stack type. -/
def combStep (heads : List Ty) (valid : List Bool) (sty : Ty) :
    List Bool :=
  List.zipWith (fun t v => v && tyEq t sty) heads valid

/-- The position loop of `_TypeChecker.check_comb` (`for index, types
in enumerate(zip(*args))`); `n` is the common case length. -/
def checkCombGo (n : Nat) (cases : List (List Ty)) (valid : List Bool)
    (token : TokenRec) (s : Stack) (acc : List Ty) :
    Except Exc (List Bool × List Ty × Stack) :=
  match n with
  | 0 => .ok (valid, acc.reverse, s)
  | m + 1 => do
    let (a, s') ← pyPopS s
    let heads := cases.map (fun c => c.headD ANY)
    let tails := cases.map (fun c => c.tail)
    let newValid := combStep heads valid a.2
    if newValid.any (· = true) then
      checkCombGo m tails newValid token s' (a.2 :: acc)
    else
      .error (.InvalidType a.1.info (.TypeCheckerException token.info))

/-- `_TypeChecker.check_comb` (typechecker.py lines 138-162): pops one
value per case position, narrows the set of matching cases, fails with
`InvalidType` chained to `TypeCheckerException` when no case survives a
position, and returns the first surviving case index together with the
popped types (in pop order, top of stack first). -/
def check_comb (cases : List (List Ty)) (token : TokenRec) (s : Stack) :
    Except Exc (Nat × List Ty × Stack) := do
  if cases.isEmpty then .error .AssertionError
  else if (cases.map List.length).eraseDups.length ≠ 1 then
    .error .AssertionError
  else do
    let length := (cases.headD []).length
    let _ ← check_length length token s
    let (valid, stys, s') ←
      checkCombGo length cases (cases.map (fun _ => true)) token s []
    match valid.findIdx? (· = true) with
    | some i => .ok (i, stys, s')
    | none => .error .StopIteration

/-- The `zip(prev, stack)` loop of `cmp_stack`, walking both stacks from
the bottom (Python index 0); called on the reversed stacks. -/
def cmpZip : List (TokenRec × Ty) → List (TokenRec × Ty) → Exc →
    Except Exc Unit
  | i :: is, j :: js, block =>
    if tyEq i.2 j.2 then cmpZip is js block
    else .error (.Reporting j.1.info (.Reporting i.1.info block))
  | _, _, _ => .ok ()

/-- `_TypeChecker.cmp_stack` (typechecker.py lines 164-171). -/
def cmp_stack (stack prev : Stack) (block : Exc) : Except Exc Unit :=
  if prev.length < stack.length then
    match stack with
    | a :: _ => .error (.AddedToken a.1.info block)
    | [] => .ok ()
  else if stack.length < prev.length then
    match prev with
    | p :: _ => .error (.MissingToken p.1.info block)
    | [] => .ok ()
  else cmpZip prev.reverse stack.reverse block

/-- Generic Python `list.pop()`. -/
def pyPop {α : Type} : List α → Except Exc (α × List α)
  | [] => .error .IndexError
  | a :: r => .ok (a, r)

/-- The `for d in reversed(self.locals)` lookup of the `OP_WORD` arm;
the innermost scope is the head of the list. -/
def lookupLocals (ls : List (List (String × (TokenRec × Ty))))
    (k : String) : Option (TokenRec × Ty) :=
  match ls with
  | [] => none
  | d :: rest =>
    match dictGet d k with
    | some v => some v
    | none => lookupLocals rest k

/-- `for i in procedure.out: self.stack.append(i)`. -/
def pushOuts (h : List TokenRec) (out : List (Nat × Ty)) (s : Stack) :
    Stack :=
  out.foldl (fun s e => (getTok h e.1, e.2) :: s) s

/-- The binding loop of the `OP_WITH` arm: one pop per captured name. -/
def withGo (h : List TokenRec) (data : List Nat)
    (l : List (String × (TokenRec × Ty))) (s : Stack) :
    Except Exc (List (String × (TokenRec × Ty)) × Stack) :=
  match data with
  | [] => .ok (l, s)
  | n :: rest => do
    let (a, s') ← pyPop s
    withGo h rest (dictSet l (pyKey (getTok h n).value) a) s'

/-- One iteration of `_TypeChecker.run` (typechecker.py lines 188-638)
on a single token.  The Python `match` statement is translated as an
if-chain on `token.type` in source order; value patterns on enum
constants compare by equality, so the chain is semantically identical,
including the second `Intrinsics.OP_SWAP` arm (lines 236-245), which
repeats the pattern of the first (lines 229-234) and is therefore dead,
and the second `OpTypes.OP_SYSCALL` arm (lines 449-451).  `h` is the
read-only token heap used to follow `FlowInfo` references. -/
def tcStep (h : List TokenRec) (st : TCSt) (token : TokenRec) :
    Except Exc TCSt :=
  if token.type = .OP_LABEL then .ok st
  else if token.type = .OP_PUSH then
    .ok { st with stack := (token, INT) :: st.stack }
  else if token.type = .OP_BOOL then
    .ok { st with stack := (token, BOOL) :: st.stack }
  else if token.type = .OP_CHAR then
    .ok { st with stack := (token, CHAR) :: st.stack }
  else if token.type = .OP_STRING then
    .ok { st with stack := (token, ptrIdx CHAR) :: (token, INT) :: st.stack }
  else if token.type = .OP_DROP then do
    let (_, s') ← check [ANY] token st.stack
    .ok { st with stack := s' }
  else if token.type = .OP_DUP then do
    let _ ← check_length 1 token st.stack
    let (a, s') ← pyPop st.stack
    .ok { st with stack := (token, a.2) :: a :: s' }
  else if token.type = .OP_DUP2 then do
    let _ ← check_length 2 token st.stack
    let (a, s₁) ← pyPop st.stack
    let (b, s₂) ← pyPop s₁
    .ok { st with stack := (token, a.2) :: (token, b.2) :: a :: b :: s₂ }
  else if token.type = .OP_SWAP then do
    let _ ← check_length 2 token st.stack
    let (a, s₁) ← pyPop st.stack
    let (b, s₂) ← pyPop s₁
    .ok { st with stack := b :: a :: s₂ }
  else if token.type = .OP_SWAP then do
    -- dead arm (typechecker.py lines 236-245): same pattern as above
    let _ ← check_length 4 token st.stack
    let (a, s₁) ← pyPop st.stack
    let (b, s₂) ← pyPop s₁
    let (c, s₃) ← pyPop s₂
    let (d, s₄) ← pyPop s₃
    .ok { st with stack := b :: a :: d :: c :: s₄ }
  else if token.type = .OP_OVER then do
    let _ ← check_length 2 token st.stack
    let x ← pyGetPair st.stack 1
    .ok { st with stack := x :: st.stack }
  else if token.type = .OP_ROT then do
    let _ ← check_length 3 token st.stack
    let (a, s₁) ← pyPop st.stack
    let (b, s₂) ← pyPop s₁
    let (c, s₃) ← pyPop s₂
    .ok { st with stack := c :: a :: b :: s₃ }
  else if token.type = .OP_RROT then do
    let _ ← check_length 3 token st.stack
    let (a, s₁) ← pyPop st.stack
    let (b, s₂) ← pyPop s₁
    let (c, s₃) ← pyPop s₂
    .ok { st with stack := b :: c :: a :: s₃ }
  else if token.type = .OP_PLUS then do
    let (c, stys, s') ← check_comb
      [[INT, INT], [INT, ptrIdx ANY], [ptrIdx ANY, INT], [CHAR, CHAR]]
      token st.stack
    if c = 0 then .ok { st with stack := (token, INT) :: s' }
    else if c = 1 then do
      let t ← pyGetTy stys 1
      .ok { st with stack := (token, t) :: s' }
    else if c = 2 then do
      let t ← pyGetTy stys 0
      .ok { st with stack := (token, t) :: s' }
    else if c = 3 then .ok { st with stack := (token, CHAR) :: s' }
    else .ok { st with stack := s' }
  else if token.type = .OP_MINUS then do
    let (c, _, s') ← check_comb
      [[INT, INT], [INT, ptrIdx ANY], [ptrIdx ANY, ptrIdx ANY],
       [CHAR, CHAR]] token st.stack
    if c = 0 then .ok { st with stack := (token, INT) :: s' }
    else if c = 1 then .ok { st with stack := (token, ptrIdx ANY) :: s' }
    else if c = 2 then .ok { st with stack := (token, INT) :: s' }
    else if c = 3 then .ok { st with stack := (token, CHAR) :: s' }
    else .ok { st with stack := s' }
  else if token.type = .OP_MUL then do
    let (_, s') ← check [INT, INT] token st.stack
    .ok { st with stack := (token, INT) :: s' }
  else if token.type = .OP_DIV then do
    let (_, s') ← check [INT, INT] token st.stack
    .ok { st with stack := (token, INT) :: s' }
  else if token.type = .OP_MOD then do
    let (_, s') ← check [INT, INT] token st.stack
    .ok { st with stack := (token, INT) :: s' }
  else if token.type = .OP_DIVMOD then do
    let (_, s') ← check [INT, INT] token st.stack
    .ok { st with stack := (token, INT) :: (token, INT) :: s' }
  else if token.type = .OP_INCREMENT then do
    let (c, _, s') ← check_comb [[INT], [ptrIdx ANY], [CHAR]] token st.stack
    if c = 0 then .ok { st with stack := (token, INT) :: s' }
    else if c = 1 then .ok { st with stack := (token, ptrIdx ANY) :: s' }
    else if c = 2 then .ok { st with stack := (token, CHAR) :: s' }
    else .ok { st with stack := s' }
  else if token.type = .OP_DECREMENT then do
    let (c, _, s') ← check_comb [[INT], [ptrIdx ANY], [CHAR]] token st.stack
    if c = 0 then .ok { st with stack := (token, INT) :: s' }
    else if c = 1 then .ok { st with stack := (token, ptrIdx ANY) :: s' }
    else if c = 2 then .ok { st with stack := (token, CHAR) :: s' }
    else .ok { st with stack := s' }
  else if token.type = .OP_BLSH then do
    let (_, s') ← check [INT, INT] token st.stack
    .ok { st with stack := (token, INT) :: s' }
  else if token.type = .OP_BRSH then do
    let (_, s') ← check [INT, INT] token st.stack
    .ok { st with stack := (token, INT) :: s' }
  else if token.type = .OP_BAND then do
    let (c, _, s') ← check_comb [[INT, INT], [CHAR, CHAR], [BOOL, BOOL]]
      token st.stack
    if c = 0 then .ok { st with stack := (token, INT) :: s' }
    else if c = 1 then .ok { st with stack := (token, BOOL) :: s' }
    else if c = 2 then .ok { st with stack := (token, CHAR) :: s' }
    else .ok { st with stack := s' }
  else if token.type = .OP_BOR then do
    let (c, _, s') ← check_comb [[INT, INT], [CHAR, CHAR], [BOOL, BOOL]]
      token st.stack
    if c = 0 then .ok { st with stack := (token, INT) :: s' }
    else if c = 1 then .ok { st with stack := (token, BOOL) :: s' }
    else if c = 2 then .ok { st with stack := (token, CHAR) :: s' }
    else .ok { st with stack := s' }
  else if token.type = .OP_BXOR then do
    let (c, _, s') ← check_comb [[INT, INT], [CHAR, CHAR], [BOOL, BOOL]]
      token st.stack
    if c = 0 then .ok { st with stack := (token, INT) :: s' }
    else if c = 1 then .ok { st with stack := (token, BOOL) :: s' }
    else if c = 2 then .ok { st with stack := (token, CHAR) :: s' }
    else .ok { st with stack := s' }
  else if token.type = .OP_EQ then do
    let (_, s') ← check_same 2 token st.stack
    .ok { st with stack := (token, BOOL) :: s' }
  else if token.type = .OP_NE then do
    let (_, s') ← check_same 2 token st.stack
    .ok { st with stack := (token, BOOL) :: s' }
  else if token.type = .OP_GT then do
    let (_, s') ← check_same 2 token st.stack
    .ok { st with stack := (token, BOOL) :: s' }
  else if token.type = .OP_GE then do
    let (_, s') ← check_same 2 token st.stack
    .ok { st with stack := (token, BOOL) :: s' }
  else if token.type = .OP_LT then do
    let (_, s') ← check_same 2 token st.stack
    .ok { st with stack := (token, BOOL) :: s' }
  else if token.type = .OP_LE then do
    let (_, s') ← check_same 2 token st.stack
    .ok { st with stack := (token, BOOL) :: s' }
  else if token.type = .OP_DUMP then do
    let (_, s') ← check [ANY] token st.stack
    .ok { st with stack := s' }
  else if token.type = .OP_UDUMP then do
    let (_, s') ← check [ANY] token st.stack
    .ok { st with stack := s' }
  else if token.type = .OP_CDUMP then do
    let (_, s') ← check [ANY] token st.stack
    .ok { st with stack := s' }
  else if token.type = .OP_HEXDUMP then do
    let (_, s') ← check [INT] token st.stack
    .ok { st with stack := s' }
  else if token.type = .OP_SYSCALL then do
    let (_, s') ← check [INT] token st.stack
    .ok { st with stack := (token, INT) :: s' }
  else if token.type = .OP_RSYSCALL1 then do
    let (_, s') ← check [ANY, INT] token st.stack
    .ok { st with stack := (token, INT) :: s' }
  else if token.type = .OP_RSYSCALL2 then do
    let (_, s') ← check [ANY, ANY, INT] token st.stack
    .ok { st with stack := (token, INT) :: s' }
  else if token.type = .OP_RSYSCALL3 then do
    let (_, s') ← check [ANY, ANY, ANY, INT] token st.stack
    .ok { st with stack := (token, INT) :: s' }
  else if token.type = .OP_RSYSCALL4 then do
    let (_, s') ← check [ANY, ANY, ANY, ANY, INT] token st.stack
    .ok { st with stack := (token, INT) :: s' }
  else if token.type = .OP_RSYSCALL5 then do
    let (_, s') ← check [ANY, ANY, ANY, ANY, ANY, INT] token st.stack
    .ok { st with stack := (token, INT) :: s' }
  else if token.type = .OP_RSYSCALL6 then do
    let (_, s') ← check [ANY, ANY, ANY, ANY, ANY, ANY, INT] token st.stack
    .ok { st with stack := (token, INT) :: s' }
  else if token.type = .OP_SYSCALL then do
    -- dead arm (typechecker.py lines 449-451): same pattern as above
    let (_, s') ← check [INT] token st.stack
    .ok { st with stack := (token, INT) :: s' }
  else if token.type = .OP_SYSCALL1 then do
    let (_, s') ← check [INT, ANY] token st.stack
    .ok { st with stack := (token, INT) :: s' }
  else if token.type = .OP_SYSCALL2 then do
    let (_, s') ← check [INT, ANY, ANY] token st.stack
    .ok { st with stack := (token, INT) :: s' }
  else if token.type = .OP_SYSCALL3 then do
    let (_, s') ← check [INT, ANY, ANY, ANY] token st.stack
    .ok { st with stack := (token, INT) :: s' }
  else if token.type = .OP_SYSCALL4 then do
    let (_, s') ← check [INT, ANY, ANY, ANY, ANY] token st.stack
    .ok { st with stack := (token, INT) :: s' }
  else if token.type = .OP_SYSCALL5 then do
    let (_, s') ← check [INT, ANY, ANY, ANY, ANY, ANY] token st.stack
    .ok { st with stack := (token, INT) :: s' }
  else if token.type = .OP_SYSCALL6 then do
    let (_, s') ← check [INT, ANY, ANY, ANY, ANY, ANY, ANY] token st.stack
    .ok { st with stack := (token, INT) :: s' }
  else if token.type = .OP_EXIT then do
    let (_, s') ← check [INT] token st.stack
    .ok { st with stack := s' }
  else if token.type = .OP_IF then
    .ok { st with block_stack := st.stack :: st.block_stack,
                  block_origin_stack := st.stack :: st.block_origin_stack }
  else if token.type = .OP_ELIF then do
    let (prev, bs) ← pyPop st.block_stack
    let fi ← getVFlowE token.value
    let p ← match fi.prev with
      | some p => pure p
      | none => throw Exc.AssertionError
    let pt := getTok h p
    let _ ← if pt.type = .OP_IF ∧ fi.haselse = false then
        cmp_stack st.stack prev (.IfException pt.info)
      else pure ()
    let _ ← if pt.type = .OP_ELIF then
        cmp_stack st.stack prev (.ElifException pt.info)
      else pure ()
    let origin ← pyHeadL st.block_origin_stack
    .ok { st with block_stack := st.stack :: bs, stack := origin }
  else if token.type = .OP_ELSE then do
    let (prev, bs) ← pyPop st.block_stack
    let fi ← getVFlowE token.value
    let p ← match fi.prev with
      | some p => pure p
      | none => throw Exc.AssertionError
    let pt := getTok h p
    let _ ← if pt.type = .OP_ELIF then
        cmp_stack st.stack prev (.ElseException pt.info)
      else pure ()
    let origin ← pyHeadL st.block_origin_stack
    .ok { st with block_stack := st.stack :: bs, stack := origin }
  else if token.type = .OP_WHILE then
    .ok { st with block_origin_stack := st.stack :: st.block_origin_stack,
                  block_stack := st.stack :: st.block_stack }
  else if token.type = .OP_DO then do
    let fi ← getVFlowE token.value
    let rt := (getTok h fi.root).type
    if rt = .OP_WITH ∨ rt = .OP_LET then .ok st
    else do
      let (_, s') ← check [BOOL] token st.stack
      if rt = .OP_WHILE then do
        let prev ← pyHeadL st.block_stack
        if prev.length ≠ s'.length then do
          let a ← pyHeadS s'
          throw (Exc.WhileException a.1.info)
        else .ok { st with stack := s' }
      else .ok { st with stack := s' }
  else if token.type = .OP_END then do
    let fi ← getVFlowE token.value
    let rt := (getTok h fi.root).type
    if rt = .OP_WITH ∨ rt = .OP_LET then do
      let (_, ls) ← pyPop st.locals
      .ok { st with locals := ls }
    else do
      let (prev, bs) ← pyPop st.block_stack
      let (_, os) ← pyPop st.block_origin_stack
      let st := { st with block_stack := bs, block_origin_stack := os }
      if rt = .PROC then do
        let p ← getVProcE (getTok h fi.root).value
        let (_, s') ← check (p.out.map (·.2)) token st.stack
        match s' with
        | [] => .ok { st with stack := prev }
        | a :: _ =>
          throw (Exc.ProcedureError a.1.info
            (.Reporting (getTok h fi.root).info .NoCause))
      else if rt = .OP_WHILE then do
        let _ ← cmp_stack st.stack prev (.WhileException token.info)
        .ok { st with stack := prev }
      else if rt = .OP_IF then do
        let _ ← cmp_stack st.stack prev (.IfException token.info)
        .ok st
      else if rt = .OP_END then .ok st
      else throw Exc.RuntimeError
  else if token.type = .OP_LET then do
    let fi ← getVFlowE token.value
    let (_, s') ← check (List.replicate fi.data.length INT) token st.stack
    let l := fi.data.foldl
      (fun acc tid =>
        dictSet acc (pyKey (getTok h tid).value) (getTok h tid, ptrIdx ANY))
      []
    .ok { st with stack := s', locals := l :: st.locals }
  else if token.type = .OP_WITH then do
    let fi ← getVFlowE token.value
    let _ ← check_length fi.data.length token st.stack
    let (l, s') ← withGo h fi.data [] st.stack
    .ok { st with stack := s', locals := l :: st.locals }
  else if token.type = .OP_ARGC then
    .ok { st with stack := (token, INT) :: st.stack }
  else if token.type = .OP_ARGV then
    .ok { st with stack := (token, ptrIdx ANY) :: st.stack }
  else if token.type = .OP_STORE then do
    let (_, s') ← check [ptrIdx ANY, CHAR] token st.stack
    .ok { st with stack := s' }
  else if token.type = .OP_STORE16 then do
    let (_, s') ← check [ptrIdx ANY, INT] token st.stack
    .ok { st with stack := s' }
  else if token.type = .OP_STORE32 then do
    let (_, s') ← check [ptrIdx ANY, INT] token st.stack
    .ok { st with stack := s' }
  else if token.type = .OP_STORE64 then do
    let (_, s') ← check [ptrIdx ANY, INT] token st.stack
    .ok { st with stack := s' }
  else if token.type = .OP_LOAD then do
    let (ts, s') ← check [ptrIdx ANY] token st.stack
    let t0 ← pyGetPair ts 0
    let d ← derefType t0.2
    .ok { st with stack := (token, d) :: s' }
  else if token.type = .OP_LOAD16 then do
    let (ts, s') ← check [ptrIdx ANY] token st.stack
    let t0 ← pyGetPair ts 0
    let d ← derefType t0.2
    .ok { st with stack := (token, d) :: s' }
  else if token.type = .OP_LOAD32 then do
    let (ts, s') ← check [ptrIdx ANY] token st.stack
    let t0 ← pyGetPair ts 0
    let d ← derefType t0.2
    .ok { st with stack := (token, d) :: s' }
  else if token.type = .OP_LOAD64 then do
    let (ts, s') ← check [ptrIdx ANY] token st.stack
    let t0 ← pyGetPair ts 0
    let d ← derefType t0.2
    .ok { st with stack := (token, d) :: s' }
  else if token.type = .OP_WORD then
    match lookupLocals st.locals (pyKey token.value) with
    | some pair => .ok { st with stack := pair :: st.stack }
    | none =>
      match dictGet st.procedures (pyKey token.value) with
      | some p => do
        let (_, s') ← check (p.args.map (·.2)) token st.stack
        .ok { st with stack := pushOuts h p.out s' }
      | none => throw (Exc.UnknownToken token.info)
  else if token.type = .CAST then do
    let (a, s') ← pyPop st.stack
    .ok { st with stack := (a.1, pyTyOf token.value) :: s' }
  else if token.type = .OP_PUSHMEMORY then
    .ok { st with stack := (token, ptrIdx ANY) :: st.stack }
  else if token.type = .PROC then do
    let p ← getVProcE token.value
    let l := p.args.foldl
      (fun acc e =>
        dictSet acc (pyKey (getTok h e.1).value) (getTok h e.1, e.2))
      []
    .ok { st with procedures := dictSet st.procedures p.name p,
                  block_origin_stack := st.stack :: st.block_origin_stack,
                  block_stack := [] :: st.block_stack,
                  stack := [],
                  locals := l :: st.locals }
  else if token.type = .CALL then
    match dictGet st.procedures (pyKey token.value) with
    | none => throw Exc.KeyError
    | some p => do
      let (_, s') ← check (p.args.map (·.2)) token st.stack
      .ok { st with stack := pushOuts h p.out s' }
  else throw Exc.RuntimeError

/-- The terminal condition of `_TypeChecker.run` (typechecker.py lines
639-644), reached after the last instruction: a non-empty residual
stack raises `StackNotEmpty` at the origin token of the topmost
residual value. -/
def tcEnd (st : TCSt) : Except Exc Unit :=
  match st.stack with
  | [] => .ok ()
  | a :: _ => .error (.StackNotEmpty a.1.info)

/-- Feed every instruction token to the checker in order. -/
def tcRunGo (h : List TokenRec) (instrs : List Nat) (st : TCSt) :
    Except Exc TCSt :=
  match instrs with
  | [] => .ok st
  | i :: is => do tcRunGo h is (← tcStep h st (getTok h i))

/-- Modelled from the spec: the driver feeding the instruction list to
the type checker one token at a time and then signalling the end of the
program (the engine side lives in the missing `engine.py`; spec §2 and
§4.6).  The per-token behaviour `tcStep` and the terminal condition
`tcEnd` are translated from `typechecker.py`. -/
def tcRun (h : List TokenRec) (instrs : List Nat) : Except Exc Unit := do
  let st ← tcRunGo h instrs {}
  tcEnd st

/-- Lexical token categories (`TokenTypes` of the missing `lexer.py`,
modelled from the spec §4.1). -/
inductive LexTy where
  | NUMBER | STRING | CHAR | WORD | OP | CAST | NEW_LINE
  deriving DecidableEq, Repr

/-- A lexical token (`TokenInfo` of the missing `lexer.py`, modelled
from the spec §4.1): category, spelling, starting line, and an abstract
span id used by diagnostics. -/
structure LexTok where
  type : LexTy
  string : String
  line : Int := 0
  info : Nat := 0
  deriving DecidableEq, Repr

/-- The `KEYWORDS` table (lang.py lines 151-203): maps a keyword
spelling to the resolved token it constructs, carrying the lexical
token's span and spelling. -/
def keywordToken (s : String) (info : Nat) : Option TokenRec :=
  let mk := fun (t : TokTy) (v : TokenVal) =>
    some { type := t, value := v, info := info, infoStr := s : TokenRec }
  if s = "true" then mk .OP_BOOL (.vbool true)
  else if s = "false" then mk .OP_BOOL (.vbool false)
  else if s = "dump" then mk .OP_DUMP .vnone
  else if s = "udump" then mk .OP_UDUMP .vnone
  else if s = "blsh" then mk .OP_BLSH .vnone
  else if s = "brsh" then mk .OP_BRSH .vnone
  else if s = "band" then mk .OP_BAND .vnone
  else if s = "bor" then mk .OP_BOR .vnone
  else if s = "bxor" then mk .OP_BXOR .vnone
  else if s = "cdump" then mk .OP_CDUMP .vnone
  else if s = "hexdump" then mk .OP_HEXDUMP .vnone
  else if s = "syscall" then mk .OP_SYSCALL .vnone
  else if s = "syscall1" then mk .OP_SYSCALL1 .vnone
  else if s = "syscall2" then mk .OP_SYSCALL2 .vnone
  else if s = "syscall3" then mk .OP_SYSCALL3 .vnone
  else if s = "syscall4" then mk .OP_SYSCALL4 .vnone
  else if s = "syscall5" then mk .OP_SYSCALL5 .vnone
  else if s = "syscall6" then mk .OP_SYSCALL6 .vnone
  else if s = "rsyscall1" then mk .OP_RSYSCALL1 .vnone
  else if s = "rsyscall2" then mk .OP_RSYSCALL2 .vnone
  else if s = "rsyscall3" then mk .OP_RSYSCALL3 .vnone
  else if s = "rsyscall4" then mk .OP_RSYSCALL4 .vnone
  else if s = "rsyscall5" then mk .OP_RSYSCALL5 .vnone
  else if s = "rsyscall6" then mk .OP_RSYSCALL6 .vnone
  else if s = "drop" then mk .OP_DROP .vnone
  else if s = "dup" then mk .OP_DUP .vnone
  else if s = "dup2" then mk .OP_DUP2 .vnone
  else if s = "swap" then mk .OP_SWAP .vnone
  else if s = "swap2" then mk .OP_SWAP2 .vnone
  else if s = "over" then mk .OP_OVER .vnone
  else if s = "rot" then mk .OP_ROT .vnone
  else if s = "rrot" then mk .OP_RROT .vnone
  else if s = "exit" then mk .OP_EXIT .vnone
  else if s = "if" then mk .OP_IF .vnone
  else if s = "elif" then mk .OP_ELIF .vnone
  else if s = "else" then mk .OP_ELSE .vnone
  else if s = "while" then mk .OP_WHILE .vnone
  else if s = "do" then mk .OP_DO .vnone
  else if s = "macro" then mk .MACRO .vnone
  else if s = "proc" then mk .PROC .vnone
  else if s = "in" then mk .IN .vnone
  else if s = "out" then mk .OUT .vnone
  else if s = "memory" then mk .MEMORY .vnone
  else if s = "include" then mk .INCLUDE .vnone
  else if s = "end" then mk .OP_END .vnone
  else if s = "let" then mk .OP_LET .vnone
  else if s = "with" then mk .OP_WITH .vnone
  else if s = "argc" then mk .OP_ARGC .vnone
  else if s = "argv" then mk .OP_ARGV .vnone
  else if s = "store" then mk .OP_STORE .vnone
  else if s = "load" then mk .OP_LOAD .vnone
  else none

/-- The `OPERANDS` table (lang.py lines 206-238). -/
def opToken (s : String) (info : Nat) : Option TokenRec :=
  let mk := fun (t : TokTy) =>
    some { type := t, info := info, infoStr := s : TokenRec }
  if s = "+" then mk .OP_PLUS
  else if s = "-" then mk .OP_MINUS
  else if s = "*" then mk .OP_MUL
  else if s = "/" then mk .OP_DIV
  else if s = "%" then mk .OP_MOD
  else if s = "/%" then mk .OP_DIVMOD
  else if s = "++" then mk .OP_INCREMENT
  else if s = "--" then mk .OP_DECREMENT
  else if s = "==" then mk .OP_EQ
  else if s = "!=" then mk .OP_NE
  else if s = ">" then mk .OP_GT
  else if s = ">=" then mk .OP_GE
  else if s = "<" then mk .OP_LT
  else if s = "<=" then mk .OP_LE
  else if s = "!" then mk .OP_STORE
  else if s = "!16" then mk .OP_STORE16
  else if s = "!32" then mk .OP_STORE32
  else if s = "!64" then mk .OP_STORE64
  else if s = "@" then mk .OP_LOAD
  else if s = "@16" then mk .OP_LOAD16
  else if s = "@32" then mk .OP_LOAD32
  else if s = "@64" then mk .OP_LOAD64
  else if s = "<<" then mk .OP_BLSH
  else if s = ">>" then mk .OP_BRSH
  else if s = "&" then mk .OP_BAND
  else if s = "|" then mk .OP_BOR
  else if s = "^" then mk .OP_BXOR
  else none

/-- `StrToType`'s base-name table (lang.py lines 247-257): resolved
base type together with the length of the base spelling. -/
def strToTypeBase (s : String) : Option (Ty × Nat) :=
  if s = "any" then some (ANY, 3)
  else if s = "void" then some (ANY, 4)
  else if s = "int" then some (INT, 3)
  else if s = "ptr" then some (PTR, 3)
  else if s = "bool" then some (BOOL, 4)
  else if s = "char" then some (CHAR, 4)
  else if s = "byte" then some (CHAR, 4)
  else if s = "dword" then some (INT, 4)
  else none

/-- The pointer-suffix loop of `StrToType`: one `PTR[...]` layer per
leading `'*'` of the remaining suffix. -/
def ptrLayers (t : Ty) : List Char → Ty
  | '*' :: rest => ptrLayers (ptrIdx t) rest
  | _ => t

/-- `StrToType` (lang.py lines 246-263).  The `s.rstrip('*')` is
computed on the character list so that the whole function reduces by
computation (the `String` convenience wrappers are defined by
well-founded recursion and would block `decide`). -/
def StrToType (s : String) : Option Ty :=
  match strToTypeBase
      (String.mk ((s.toList.reverse.dropWhile (· = '*')).reverse)) with
  | none => none
  | some (t, l) => some (ptrLayers t (s.toList.drop l))

/-- Digit-accumulation loop of the decimal parser. -/
def pyIntGo : List Char → Nat → Nat
  | [], acc => acc
  | c :: cs, acc => pyIntGo cs (acc * 10 + (c.toNat - 48))

/-- Decimal integer parser standing in for Python `int(...)` in
`match_token` (`String.toInt?` is defined by well-founded recursion and
blocks kernel reduction): an optional leading minus followed by decimal
digits, which covers every numeric literal in this development. -/
def pyInt (s : String) : Int :=
  match s.toList with
  | '-' :: ds => - (pyIntGo ds 0 : Int)
  | ds => (pyIntGo ds 0 : Int)

/-- Modelled: `unescape_string` (lang.py lines 265-266) delegates
C-style unescaping to Python's codec machinery (external); modelled as
the identity, which agrees with it on every string free of escape
sequences — no claim below involves an escape sequence. -/
def unescapeStr (s : String) : String := s

/-- A symbol-table payload: the raw body token ids of a macro, or the
opener token id of a procedure / memory declaration. -/
inductive SymData where
  | one (id : Nat)
  | many (ids : List Nat)
  deriving DecidableEq, Repr

/-- `Symbol` (modelled from the spec §3 for the missing `classes.py`):
`(kind, data)` with `kind ∈ {MACRO, PROC, MEMORY}`. -/
structure SymbolRec where
  kind : TokTy
  data : SymData
  deriving DecidableEq, Repr

/-- The parser state: the fields of `Program` (lang.py lines 293-304)
that the embedded pipeline uses, together with the token heap, the
current coroutine state of `build_tokens` (`comment`) and of `expand`
(`prevExp`), and the flow-resolver stack (opener token ids, most recent
first). -/
structure PState where
  heap : List TokenRec := []
  instructions : List Nat := []
  pos : Nat := 0
  symbols : List (String × SymbolRec) := []
  globals : List (String × SymbolRec) := []
  letDepth : Int := 0
  inPreproc : Nat := 0
  flowStack : List Nat := []
  prevExp : Option Nat := none
  commentLine : Int := -1
  includes : List String := []
  deriving DecidableEq, Repr

/-- A token produced by the match pipeline: either a reference to an
already-existing heap token (the stored symbol data re-emitted by
`match_word`) or a freshly created record to be allocated by `add`. -/
inductive Emit where
  | old (id : Nat)
  | fresh (t : TokenRec)
  deriving DecidableEq, Repr

/-- `Token.copy(token)` for macro expansion (modelled from the spec
§4.3 for the missing `classes.py`: "a deep copy of the macro body
tokens, each carrying a new `source_info` whose `parent` is the call
site"): same kind, value and spelling, span re-anchored at the call
site. -/
def copyTok (t : TokenRec) (lex : LexTok) : TokenRec :=
  { t with info := lex.info }

/-- `Program.match_word` (lang.py lines 306-314): a word naming a
symbol expands to the stored data token (MEMORY), a fresh `CALL`
(PROC), or a `LABEL` followed by copies of the body (MACRO); otherwise
it stays an unresolved `WORD`. -/
def match_word (st : PState) (lex : LexTok) : List Emit :=
  match dictGet st.symbols lex.string with
  | some sym =>
    if sym.kind = .MEMORY then
      match sym.data with
      | .one id => [.old id]
      | .many _ => []
    else if sym.kind = .PROC then
      [.fresh { type := .CALL, value := .vstr lex.string,
                info := lex.info, infoStr := lex.string }]
    else if sym.kind = .MACRO then
      match sym.data with
      | .many ids =>
        .fresh { type := .OP_LABEL, value := .vstr lex.string,
                 info := lex.info, infoStr := lex.string } ::
          ids.map (fun i => .fresh (copyTok (getTok st.heap i) lex))
      | .one _ => []
    else
      [.fresh { type := .OP_WORD, value := .vstr lex.string,
                info := lex.info, infoStr := lex.string }]
  | none =>
    [.fresh { type := .OP_WORD, value := .vstr lex.string,
              info := lex.info, infoStr := lex.string }]

/-- The outcome of `Program.match_token`: resolved tokens, or one of
the two non-error signals `Comment` / `EndLine`. -/
inductive MatchRes where
  | toks (es : List Emit)
  | comment
  | endline
  deriving DecidableEq, Repr

/-- `Program.match_token` (lang.py lines 316-340), arm for arm in
source order.  The numeric value of a `NUMBER` is obtained with `pyInt`
in place of Python's `int(...)` (every literal in the runs below is a
plain decimal). -/
def match_token (st : PState) (lex : LexTok) : Except Exc MatchRes :=
  if lex.type = .NUMBER then
    .ok (.toks [.fresh { type := .OP_PUSH,
                         value := .vint (pyInt lex.string),
                         info := lex.info, infoStr := lex.string }])
  else if lex.type = .CHAR then
    .ok (.toks [.fresh
      { type := .OP_CHAR,
        value := .vint (((unescapeStr lex.string).toList.headD 'a').toNat),
        info := lex.info, infoStr := lex.string }])
  else if lex.type = .STRING then
    .ok (.toks [.fresh { type := .OP_STRING,
                         value := .vstr (unescapeStr lex.string),
                         info := lex.info, infoStr := lex.string }])
  else if lex.type = .WORD ∧ (keywordToken lex.string lex.info).isSome then
    match keywordToken lex.string lex.info with
    | some t => .ok (.toks [.fresh t])
    | none => .error .RuntimeError
  else if lex.type = .OP ∧ lex.string = "//" then .ok .comment
  else if lex.type = .OP ∧ lex.string ≠ "//" then
    match opToken lex.string lex.info with
    | none => .error (.UnknownToken lex.info)
    | some t => .ok (.toks [.fresh t])
  else if lex.type = .WORD ∧ (keywordToken lex.string lex.info).isNone then
    .ok (.toks (match_word st lex))
  else if lex.type = .NEW_LINE then .ok .endline
  else if lex.type = .CAST then
    match StrToType lex.string with
    | none => .error (.InvalidType lex.info .NoCause)
    | some t =>
      .ok (.toks [.fresh { type := .CAST, value := .vty t,
                           info := lex.info, infoStr := lex.string }])
  else .error (.UnknownToken lex.info)

/-- `Program.add` (lang.py lines 664-668) on one emitted token:
allocate fresh records, append the id to the instruction list, assign
`token.position = self._position` and increment the counter.  For a
re-emitted existing token this overwrites its previous position. -/
def addEmit (st : PState) (e : Emit) : PState × Nat :=
  match e with
  | .fresh t =>
    let id := st.heap.length
    ({ st with heap := st.heap ++ [{ t with position := st.pos }],
               instructions := st.instructions ++ [id],
               pos := st.pos + 1 }, id)
  | .old id =>
    ({ st with
        heap := setTok st.heap id
          { getTok st.heap id with position := st.pos },
        instructions := st.instructions ++ [id],
        pos := st.pos + 1 }, id)

/-- `add` over a batch of emitted tokens, collecting the ids in order. -/
def addAll (st : PState) : List Emit → PState × List Nat
  | [] => (st, [])
  | e :: rest =>
    let (st1, id) := addEmit st e
    let (st2, ids) := addAll st1 rest
    (st2, id :: ids)

/-- One step of the `build_tokens` coroutine (lang.py lines 351-368):
skip tokens on the elided comment line, dispatch `match_token`, record
a new comment line, bump `_in_preproc` when inside a preprocessing
region, and add all produced tokens to the instruction list. -/
def buildStep (st : PState) (lex : LexTok) :
    Except Exc (List Nat × PState) :=
  if lex.line = st.commentLine then .ok ([], st)
  else
    match match_token st lex with
    | .error e => .error e
    | .ok .comment => .ok ([], { st with commentLine := lex.line })
    | .ok .endline => .ok ([], st)
    | .ok (.toks es) =>
      let st :=
        if st.inPreproc ≠ 0 then { st with inPreproc := st.inPreproc + 1 }
        else st
      let (st', ids) := addAll st es
      .ok (ids, st')

/-- `Program.search_path` (lang.py lines 398-404) over an abstract
filesystem mapping full paths to the lexical-token stream of the file;
`none` plays the role of `FileNotFoundError`. -/
def search_path (files : String → Option (List LexTok)) :
    List String → String → Option (List LexTok)
  | [], _ => none
  | d :: rest, q =>
    match files (d ++ "/" ++ q) with
    | some ts => some ts
    | none => search_path files rest q

/-- Python `list.pop(-1)`. -/
def pyPopLast (l : List Nat) : Except Exc (List Nat) :=
  if l.isEmpty then .error .IndexError else .ok l.dropLast

/-- One step of the `expand` coroutine (lang.py lines 406-426): when
the previous token was `INCLUDE` and the current one a `STRING`, both
are popped off the instruction list, `_position` is rolled back by two,
and the included file's token stream is returned for prepending; a
missing file raises `FileError` carrying `token.info` — the span of the
*current* (string) token.  An `INCLUDE` followed by anything else is
`InvalidSyntax`. -/
def expandStep (files : String → Option (List LexTok)) (st : PState)
    (tid : Nat) : Except Exc (Option (List LexTok) × PState) := do
  let tok := getTok st.heap tid
  let res ←
    match st.prevExp with
    | some pid =>
      let p := getTok st.heap pid
      if p.type = .INCLUDE ∧ tok.type = .OP_STRING then do
        let i1 ← pyPopLast st.instructions
        let i2 ← pyPopLast i1
        let st' := { st with instructions := i2, pos := st.pos - 2 }
        match search_path files st'.includes (pyKey tok.value) with
        | some ts => pure (some ts, st')
        | none => throw (Exc.FileError tok.info)
      else if p.type = .INCLUDE then
        throw (Exc.InvalidSyntax tok.info)
      else pure (none, st)
    | none => pure (none, st)
  .ok (res.1, { res.2 with prevExp := some tid })

/-- Python slice `l[s:e]`. -/
def sliceInstr (l : List Nat) (s e : Nat) : List Nat :=
  (l.drop s).take (e - s)

/-- Removal of the index range `[a, b)` from the instruction list (the
`for i in reversed(range(a, b)): self.instructions.pop(i)` loops). -/
def removeRange (l : List Nat) (a b : Nat) : List Nat :=
  l.take a ++ l.drop b

/-- Python `tokens[i]` on a list of token ids. -/
def pyGetN (l : List Nat) (i : Nat) : Except Exc Nat :=
  match l.get? i with
  | some x => .ok x
  | none => .error .IndexError

/-- Update the `FlowInfo` stored in the token with id `i`. -/
def setFlow (h : List TokenRec) (i : Nat) (f : FlowData → FlowData) :
    List TokenRec :=
  setTok h i
    { getTok h i with value := .vflow (f (getFlowD (getTok h i).value)) }

/-- `Program.parse_macro` (lang.py lines 428-438) on the instruction
slice of the macro region.  Note that the `tokens[1]` access of the
leading assert precedes the `len(tokens) == 1` check, so a nameless
macro raises `IndexError`, not `InvalidSyntax`. -/
def parseMacro (st : PState) (tokens : List Nat) : Except Exc PState := do
  let t1id ← pyGetN tokens 1
  let t1 := getTok st.heap t1id
  if tokens.length = 1 then
    throw (Exc.InvalidSyntax (getTok st.heap (tokens.headD 0)).info)
  else if t1.type ≠ .OP_WORD then throw (Exc.InvalidSyntax t1.info)
  else if (dictGet st.symbols t1.infoStr).isSome then
    throw (Exc.SymbolRedefined t1.info)
  else
    let sym : SymbolRec := ⟨.MACRO, .many (tokens.drop 2)⟩
    .ok { st with symbols := dictSet st.symbols t1.infoStr sym }

/-- `Program.parse_memory` (lang.py lines 485-498) on the instruction
slice of the memory region: after the shape checks it stores the name
list and body in the opener's `FlowInfo.data` and installs
`Symbol(MEMORY, opener_token)` — the *opener* token itself, whose kind
is `PreprocTypes.MEMORY` — under the name, also in `globals`. -/
def parse_memory (st : PState) (tokens : List Nat) : Except Exc PState := do
  let t1id ← pyGetN tokens 1
  let t1 := getTok st.heap t1id
  let t0id ← pyGetN tokens 0
  let _ ← match (getTok st.heap t0id).value with
    | .vflow _ => pure ()
    | _ => throw Exc.AssertionError
  if tokens.length = 1 then
    throw (Exc.InvalidSyntax (getTok st.heap t0id).info)
  else if t1.type ≠ .OP_WORD then throw (Exc.InvalidSyntax t1.info)
  else if (dictGet st.symbols t1.infoStr).isSome then
    throw (Exc.SymbolRedefined t1.info)
  else
    let h := setFlow st.heap t0id (fun f => { f with data := tokens.drop 1 })
    let sym : SymbolRec := ⟨.MEMORY, .one t0id⟩
    .ok { st with heap := h,
                  symbols := dictSet st.symbols t1.infoStr sym,
                  globals := dictSet st.globals t1.infoStr sym }

/-- The argument-pair loop of `procedureFactory` (lang.py lines
270-278): `batched(args, 2)` with the two asserts; an odd tail or a
malformed pair raises `InvalidSyntax` as the except clauses do. -/
def pfArgs (h : List TokenRec) (tokInfo : Nat) :
    List Nat → List (Nat × Ty) → Except Exc (List (Nat × Ty))
  | [], acc => .ok acc.reverse
  | [_], _ => .error (.InvalidSyntax tokInfo)
  | v :: t :: rest, acc =>
    if (getTok h v).type ≠ .OP_WORD then
      .error (.InvalidSyntax (getTok h v).info)
    else if (getTok h t).type ≠ .CAST then
      .error (.InvalidSyntax (getTok h t).info)
    else pfArgs h tokInfo rest ((v, pyTyOf (getTok h t).value) :: acc)

/-- The out-type loop of `procedureFactory` (lang.py lines 279-284). -/
def pfOut (h : List TokenRec) :
    List Nat → List (Nat × Ty) → Except Exc (List (Nat × Ty))
  | [], acc => .ok acc.reverse
  | t :: rest, acc =>
    if (getTok h t).type = .CAST then
      pfOut h rest ((t, pyTyOf (getTok h t).value) :: acc)
    else .error (.InvalidSyntax (getTok h t).info)

/-- `procedureFactory` (lang.py lines 268-290). -/
def procedureFactory (h : List TokenRec) (rootId nameId : Nat)
    (args out body : List Nat) : Except Exc ProcRec := do
  let root := getTok h rootId
  let l ← pfArgs h root.info args []
  let m ← pfOut h out []
  .ok { opener := rootId,
        closer := (getFlowD root.value).endTok,
        name := pyKey (getTok h nameId).value,
        args := l, out := m, body := body }

/-- The recursion rewrite at the end of `parse_proc` (lang.py lines
481-483): every `WORD(name)` in the procedure body is replaced (in the
procedure's body list only) by a fresh `CALL(name)` token. -/
def rewriteBody (h : List TokenRec) (name : String) :
    List Nat → List TokenRec × List Nat
  | [] => (h, [])
  | e :: rest =>
    let t := getTok h e
    if t.type = .OP_WORD ∧ pyKey t.value = name then
      let id := h.length
      let h1 := h ++ [{ type := .CALL, value := .vstr t.infoStr,
                        info := t.info, infoStr := t.infoStr : TokenRec }]
      let (h2, rest') := rewriteBody h1 name rest
      (h2, id :: rest')
    else
      let (h1, rest') := rewriteBody h name rest
      (h1, e :: rest')

/-- `Program.parse_proc` (lang.py lines 440-483): slice out the name /
argument / out / body regions by positions, validate the name (a word
already rewritten to `CALL` or already present in the symbol table is a
redefinition), build the `Procedure`, splice the header out of the
instruction list, install the symbol, and rewrite direct recursion in
the procedure body. -/
def parse_proc (st : PState) (rootId endId : Nat) : Except Exc PState := do
  let root := getTok st.heap rootId
  let rf ← getVFlowE root.value
  let inId ← match rf.next with
    | none => throw Exc.AttributeError
    | some i => pure i
  let outOpt := (getFlowD (getTok st.heap inId).value).next
  let e1 := (getTok st.heap inId).position
  let args := sliceInstr st.instructions (root.position + 1) e1
  let (outToks, e2) :=
    match outOpt with
    | some o =>
      (sliceInstr st.instructions (e1 + 1) (getTok st.heap o).position,
       (getTok st.heap o).position)
    | none => ([], e1)
  let s3 := e2 + 1
  let body := sliceInstr st.instructions s3 (getTok st.heap endId).position
  if args.length < 1 then throw (Exc.InvalidSyntax root.info)
  else do
    let a0id ← pyGetN args 0
    let a0 := getTok st.heap a0id
    if a0.type = .CALL then throw (Exc.SymbolRedefined a0.info)
    else if a0.type ≠ .OP_WORD then throw (Exc.InvalidSyntax a0.info)
    else if (dictGet st.symbols a0.infoStr).isSome then
      throw (Exc.SymbolRedefined a0.info)
    else do
      let name := a0.infoStr
      let h := setFlow st.heap inId (fun f => { f with data := args })
      let h := setFlow h rootId (fun f => { f with data := body })
      let p ← procedureFactory h rootId a0id (args.drop 1) outToks body
      let h := setTok h rootId { getTok h rootId with value := .vproc p }
      let instrs := removeRange st.instructions (root.position + 1) s3
      let sym : SymbolRec := ⟨.PROC, .one rootId⟩
      let st' := { st with
                    heap := h, instructions := instrs,
                    pos := st.pos - (s3 - (root.position + 1)),
                    symbols := dictSet st.symbols name sym }
      let (h2, body') := rewriteBody st'.heap name p.body
      let h3 := setTok h2 rootId
        { getTok h2 rootId with value := .vproc { p with body := body' } }
      .ok { st' with heap := h3 }

/-- The backward chain walk of the `END` arm of `process_flow_control`
(lang.py lines 575-583): assign `haselse` and `end` to every member of
the `if`-chain, following `prev` links; fuelled by the heap size. -/
def walkChain (h : List TokenRec) (fuel : Nat) (node : Option Nat)
    (haselse : Bool) (endId : Nat) : List TokenRec :=
  match fuel, node with
  | 0, _ => h
  | _, none => h
  | f + 1, some n =>
    let he := if (getTok h n).type = .OP_ELSE then true else haselse
    let h' := setFlow h n (fun fl => { fl with haselse := he,
                                               endTok := some endId })
    walkChain h' f (getFlowD (getTok h' n).value).prev he endId

/-- One step of the `process_flow_control` coroutine (lang.py lines
500-658) on an already-added token, arm for arm in source order.  The
arms mutate the heap (flow linkage) and, at `END`, invoke the
preprocessing constructors and splice regions out of the instruction
list.  Tokens of kinds without a matching case fall through with no
effect, as in the Python `match` statement without a wildcard case. -/
def flowStep (st : PState) (tid : Nat) : Except Exc PState := do
  let tok := getTok st.heap tid
  if tok.type = .OP_IF then
    let h := setTok st.heap tid { tok with value := .vflow { root := tid } }
    .ok { st with heap := h, flowStack := tid :: st.flowStack }
  else if tok.type = .OP_ELIF then
    match st.flowStack with
    | [] => throw (Exc.InvalidSyntax tok.info)
    | top :: rest =>
      let topT := getTok st.heap top
      if topT.type ≠ .OP_IF ∧ topT.type ≠ .OP_ELIF then
        throw (Exc.InvalidSyntax topT.info)
      else
        let fd : FlowData :=
          { root := (getFlowD topT.value).root, prev := some top }
        let h := setTok st.heap tid { tok with value := .vflow fd }
        let h := setFlow h top (fun f => { f with next := some tid })
        .ok { st with heap := h, flowStack := tid :: rest }
  else if tok.type = .OP_ELSE then
    match st.flowStack with
    | [] => throw (Exc.InvalidSyntax tok.info)
    | top :: rest =>
      let topT := getTok st.heap top
      if topT.type ≠ .OP_IF ∧ topT.type ≠ .OP_ELIF then
        throw (Exc.InvalidSyntax topT.info)
      else
        let fd : FlowData :=
          { root := (getFlowD topT.value).root, prev := some top }
        let h := setTok st.heap tid { tok with value := .vflow fd }
        let h := setFlow h top (fun f => { f with next := some tid })
        .ok { st with heap := h, flowStack := tid :: rest }
  else if tok.type = .OP_END then
    match st.flowStack with
    | [] => throw (Exc.InvalidSyntax tok.info)
    | top :: rest => do
      let topT := getTok st.heap top
      let flowRoot := (getFlowD topT.value).root
      let fd : FlowData := { root := flowRoot, prev := some top }
      let h := setTok st.heap tid { tok with value := .vflow fd }
      let st := { st with heap := h, flowStack := rest }
      let tokPos := (getTok st.heap tid).position
      if topT.type = .MACRO then do
        let slice := sliceInstr st.instructions
          (getTok st.heap flowRoot).position tokPos
        let st ← parseMacro st slice
        let topPos := (getTok st.heap top).position
        .ok { st with
               instructions := removeRange st.instructions topPos (tokPos + 1),
               pos := st.pos - (tokPos + 1 - topPos),
               inPreproc := 0 }
      else if topT.type = .PROC ∨ topT.type = .IN ∨ topT.type = .OUT then do
        let procRoot := (getFlowD topT.value).root
        let h := setFlow st.heap procRoot
          (fun f => { f with endTok := some tid })
        let st := { st with heap := h }
        let _ ← match (getFlowD (getTok st.heap procRoot).value).next with
          | some _ => pure ()
          | none => throw Exc.AssertionError
        let st ← parse_proc st procRoot tid
        .ok { st with inPreproc := 0 }
      else if topT.type = .MEMORY then do
        let slice := sliceInstr st.instructions
          (getTok st.heap flowRoot).position tokPos
        let st ← parse_memory st slice
        let topPos := (getTok st.heap top).position
        .ok { st with
               instructions := removeRange st.instructions topPos (tokPos + 1),
               pos := st.pos - (tokPos + 1 - topPos),
               inPreproc := 0 }
      else if topT.type = .OP_LET ∨ topT.type = .OP_WITH then do
        let st := { st with letDepth := st.letDepth - 1 }
        if st.inPreproc ≠ 0 then .ok st
        else do
          let f := getFlowD (getTok st.heap top).value
          let nxt ← match f.next with
            | some n => pure n
            | none => throw Exc.AssertionError
          let words := sliceInstr st.instructions
            ((getTok st.heap f.root).position + 1)
            (getTok st.heap nxt).position
          let h := setFlow st.heap top (fun fl => { fl with data := words })
          let a := (getTok h top).position + 1
          let b := (getTok h nxt).position
          .ok { st with heap := h,
                        instructions := removeRange st.instructions a b,
                        pos := st.pos - (b - a) }
      else
        .ok { st with
               heap := walkChain st.heap (st.heap.length + 1)
                 (some tid) false tid }
  else if tok.type = .OP_WHILE then
    let h := setTok st.heap tid { tok with value := .vflow { root := tid } }
    .ok { st with heap := h, flowStack := tid :: st.flowStack }
  else if tok.type = .OP_DO then
    match st.flowStack with
    | [] => throw (Exc.InvalidSyntax tok.info)
    | top :: rest =>
      let topT := getTok st.heap top
      if topT.type ≠ .OP_IF ∧ topT.type ≠ .OP_ELIF ∧
         topT.type ≠ .OP_WHILE ∧ topT.type ≠ .OP_LET ∧
         topT.type ≠ .OP_WITH then
        throw (Exc.InvalidSyntax tok.info)
      else
        let h := setTok st.heap tid
          { tok with value := .vflow (getFlowD topT.value) }
        let h :=
          if topT.type = .OP_LET ∨ topT.type = .OP_WITH then
            setFlow h top (fun f => { f with next := some tid })
          else h
        .ok { st with heap := h, flowStack := top :: rest }
  else if tok.type = .OP_LET then
    let h := setTok st.heap tid { tok with value := .vflow { root := tid } }
    .ok { st with heap := h, flowStack := tid :: st.flowStack,
                  letDepth := st.letDepth + 1 }
  else if tok.type = .OP_WITH then
    let h := setTok st.heap tid { tok with value := .vflow { root := tid } }
    .ok { st with heap := h, flowStack := tid :: st.flowStack,
                  letDepth := st.letDepth + 1 }
  else if tok.type = .MACRO then
    let h := setTok st.heap tid { tok with value := .vflow { root := tid } }
    if st.inPreproc ≠ 0 then throw (Exc.InvalidSyntax tok.info)
    else .ok { st with heap := h, inPreproc := 1,
                       flowStack := tid :: st.flowStack }
  else if tok.type = .IN then
    match st.flowStack with
    | [] => throw (Exc.InvalidSyntax tok.info)
    | top :: rest =>
      let topT := getTok st.heap top
      if topT.type ≠ .PROC then throw (Exc.InvalidSyntax tok.info)
      else
        let fd : FlowData :=
          { root := (getFlowD topT.value).root, prev := some top }
        let h := setTok st.heap tid { tok with value := .vflow fd }
        let h := setFlow h top (fun f => { f with next := some tid })
        .ok { st with heap := h, inPreproc := 0,
                      flowStack := tid :: rest }
  else if tok.type = .OUT then
    match st.flowStack with
    | [] => throw (Exc.InvalidSyntax tok.info)
    | top :: rest =>
      let topT := getTok st.heap top
      if topT.type ≠ .PROC ∧ topT.type ≠ .IN then
        throw (Exc.InvalidSyntax tok.info)
      else
        let fd : FlowData :=
          { root := (getFlowD topT.value).root, prev := some top }
        let h := setTok st.heap tid { tok with value := .vflow fd }
        let h := setFlow h top (fun f => { f with next := some tid })
        .ok { st with heap := h, inPreproc := 0,
                      flowStack := tid :: rest }
  else if tok.type = .PROC then
    if tok.value ≠ .vnone then .ok st
    else
      let h := setTok st.heap tid { tok with value := .vflow { root := tid } }
      if st.inPreproc ≠ 0 then throw (Exc.InvalidSyntax tok.info)
      else .ok { st with heap := h, inPreproc := 1,
                         flowStack := tid :: st.flowStack }
  else if tok.type = .MEMORY then
    if tok.value ≠ .vnone then .ok st
    else
      let h := setTok st.heap tid { tok with value := .vflow { root := tid } }
      if st.inPreproc ≠ 0 then throw (Exc.InvalidSyntax tok.info)
      else .ok { st with heap := h, inPreproc := 1,
                         flowStack := tid :: st.flowStack }
  else .ok st

/-- The end-of-input handling of `process_flow_control` (lang.py lines
660-662): a non-empty flow stack means an unclosed opener. -/
def flowEnd (st : PState) : Except Exc Unit :=
  match st.flowStack with
  | [] => .ok ()
  | top :: _ => .error (.InvalidSyntax (getTok st.heap top).info)

/-- The position re-normalization loop at the end of
`Program.parse_tokens` (lang.py lines 393-395):
`for index, token in enumerate(self.instructions): token.position =
index`.  A token occurring at several indices keeps the position of its
last occurrence. -/
def normGo (h : List TokenRec) (instrs : List Nat) (i : Nat) :
    List TokenRec :=
  match instrs with
  | [] => h
  | id :: rest =>
    normGo (setTok h id { getTok h id with position := i }) rest (i + 1)

/-- The driving loop of `Program.parse_tokens` (lang.py lines 370-391)
over the tokens of one `build_tokens` batch: each token is sent to the
flow resolver, then to `expand`; an include prepends its token stream
to the remaining lexical input. -/
def procIds (files : String → Option (List LexTok)) :
    List Nat → List LexTok → PState → Except Exc (List LexTok × PState)
  | [], rest, st => .ok (rest, st)
  | id :: ids, rest, st => do
    let st ← flowStep st id
    let (ext, st) ← expandStep files st id
    let rest' := match ext with
      | some ts => ts ++ rest
      | none => rest
    procIds files ids rest' st

/-- The outer lexical-token loop of `Program.parse_tokens`, fuelled
(the fuel is an upper bound on the number of lexical tokens including
all inclusions; `FuelOut` never occurs in the runs below). -/
def parseLoop (files : String → Option (List LexTok)) :
    Nat → List LexTok → PState → Except Exc PState
  | _, [], st => .ok st
  | 0, _ :: _, _ => .error .FuelOut
  | fuel + 1, lex :: rest, st => do
    let (ids, st) ← buildStep st lex
    let (work, st) ← procIds files ids rest st
    parseLoop files fuel work st

/-- `Program.parse_tokens` (lang.py lines 370-396): drive the lexical
stream through `build_tokens` / `process_flow_control` / `expand`,
signal end of input to the flow resolver, and re-normalize positions.
The lexer itself lives in the missing `lexer.py`; its output is the
`lexed` list (modelled from the spec §4.1). -/
def parse_tokens (files : String → Option (List LexTok)) (fuel : Nat)
    (lexed : List LexTok) (includes : List String) :
    Except Exc PState := do
  let st ← parseLoop files fuel lexed { includes := includes }
  let _ ← flowEnd st
  .ok { st with heap := normGo st.heap st.instructions 0 }

/-- The core pipeline on a lexical stream: parse (including flow
resolution and preprocessing), then type check the resulting
instruction list. -/
def corePipeline (files : String → Option (List LexTok)) (fuel : Nat)
    (lexed : List LexTok) : Except Exc Unit := do
  let st ← parse_tokens files fuel lexed []
  tcRun st.heap st.instructions

/-- The empty include filesystem. -/
def noFiles : String → Option (List LexTok) := fun _ => none

/-- Modelled from the spec (§4.1, the lexer of the missing `lexer.py`):
the lexical-token stream of the source `1 2 > if 10 dump else 20 dump
end 0 exit` (spec scenario 3); span ids number the tokens left to
right. -/
def c4lex : List LexTok :=
  [{ type := .NUMBER, string := "1", info := 0 },
   { type := .NUMBER, string := "2", info := 1 },
   { type := .OP, string := ">", info := 2 },
   { type := .WORD, string := "if", info := 3 },
   { type := .NUMBER, string := "10", info := 4 },
   { type := .WORD, string := "dump", info := 5 },
   { type := .WORD, string := "else", info := 6 },
   { type := .NUMBER, string := "20", info := 7 },
   { type := .WORD, string := "dump", info := 8 },
   { type := .WORD, string := "end", info := 9 },
   { type := .NUMBER, string := "0", info := 10 },
   { type := .WORD, string := "exit", info := 11 }]

/-- Modelled from the spec (§4.1): the lexical-token stream of the
source `1 2 +` (spec scenario 7). -/
def c6lex : List LexTok :=
  [{ type := .NUMBER, string := "1", info := 0 },
   { type := .NUMBER, string := "2", info := 1 },
   { type := .OP, string := "+", info := 2 }]

/-- Modelled from the spec (§4.1): the lexical-token stream of the
source `memory m 1 end m`, a memory declaration followed by one
reference to it. -/
def c3lex : List LexTok :=
  [{ type := .WORD, string := "memory", info := 0 },
   { type := .WORD, string := "m", info := 1 },
   { type := .NUMBER, string := "1", info := 2 },
   { type := .WORD, string := "end", info := 3 },
   { type := .WORD, string := "m", info := 4 }]

/-- Modelled from the spec (§4.1): the lexical-token stream of the
source `memory m 1 end m m`, a memory declaration followed by two
references to it. -/
def c7lex : List LexTok :=
  [{ type := .WORD, string := "memory", info := 0 },
   { type := .WORD, string := "m", info := 1 },
   { type := .NUMBER, string := "1", info := 2 },
   { type := .WORD, string := "end", info := 3 },
   { type := .WORD, string := "m", info := 4 },
   { type := .WORD, string := "m", info := 5 }]

/-- Concrete parser state reproducing `expand`'s view right after the
two tokens of `include "nonexistent.sl"` have been added: token 0 is
the `INCLUDE` (span 0), token 1 the `STRING` (span 1). -/
def c5st : PState :=
  { heap :=
      [{ type := .INCLUDE, info := 0, infoStr := "include" },
       { type := .OP_STRING, value := .vstr "nonexistent.sl", info := 1,
         infoStr := "nonexistent.sl", position := 1 }],
    instructions := [0, 1], pos := 2, prevExp := some 0 }

/-- The parser state produced by `parse_tokens` on `c6lex` (checked by
computation in `C7_positions_normalized_witness`). -/
def c6parsedSt : PState :=
  { heap :=
      [{ type := .OP_PUSH, value := .vint 1, info := 0, infoStr := "1",
         position := 0 },
       { type := .OP_PUSH, value := .vint 2, info := 1, infoStr := "2",
         position := 1 },
       { type := .OP_PLUS, value := .vnone, info := 2, infoStr := "+",
         position := 2 }],
    instructions := [0, 1, 2], pos := 3, prevExp := some 2 }

/-- Hand-built parser state reaching the name validation of
`parse_proc`: a resolved region `proc f in end` occupying instruction
indices 0-3 whose name `f` is already bound in the symbol table. -/
def c8st : PState :=
  { heap :=
      [{ type := .PROC,
         value := .vflow { root := 0, next := some 2, endTok := some 3 },
         info := 10, infoStr := "proc", position := 0 },
       { type := .OP_WORD, value := .vstr "f", info := 11, infoStr := "f",
         position := 1 },
       { type := .IN, value := .vflow { root := 0, prev := some 0 },
         info := 12, infoStr := "in", position := 2 },
       { type := .OP_END, value := .vflow { root := 0, prev := some 2 },
         info := 13, infoStr := "end", position := 3 }],
    instructions := [0, 1, 2, 3], pos := 4,
    symbols := [("f", ⟨.MACRO, .many []⟩)] }

/-- Like `c8st`, but the name token has already been rewritten to a
`CALL` by symbol expansion (the `proc`-after-`proc` redefinition path,
lang.py lines 461-462); the symbol table itself is empty. -/
def c8stCall : PState :=
  { heap :=
      [{ type := .PROC,
         value := .vflow { root := 0, next := some 2, endTok := some 3 },
         info := 10, infoStr := "proc", position := 0 },
       { type := .CALL, value := .vstr "f", info := 11, infoStr := "f",
         position := 1 },
       { type := .IN, value := .vflow { root := 0, prev := some 0 },
         info := 12, infoStr := "in", position := 2 },
       { type := .OP_END, value := .vflow { root := 0, prev := some 2 },
         info := 13, infoStr := "end", position := 3 }],
    instructions := [0, 1, 2, 3], pos := 4 }

/-!  General lemmas about the heap and the position-normalization
loop, shared by the claim theorems below. -/

theorem except_bind_ok {α β : Type} (a : α) (f : α → Except Exc β) :
    (Except.ok a >>= f) = f a := rfl

theorem except_bind_error {α β : Type} (e : Exc)
    (f : α → Except Exc β) :
    ((Except.error e : Except Exc α) >>= f) = .error e := rfl

theorem except_throw {α : Type} (e : Exc) :
    (throw e : Except Exc α) = .error e := rfl

theorem except_pure {α : Type} (a : α) :
    (pure a : Except Exc α) = .ok a := rfl

theorem getTok_setTok_ne (h : List TokenRec) (i j : Nat) (t : TokenRec)
    (hne : i ≠ j) : getTok (setTok h i t) j = getTok h j := by
  simp only [getTok, setTok, List.getD]
  rw [List.get?_set_ne t h hne]

theorem getTok_setTok_self (h : List TokenRec) (i : Nat) (t : TokenRec)
    (hi : i < h.length) : getTok (setTok h i t) i = t := by
  simp only [getTok, setTok, List.getD]
  rw [List.get?_set_eq_of_lt t hi]
  rfl

theorem setTok_length (h : List TokenRec) (i : Nat) (t : TokenRec) :
    (setTok h i t).length = h.length := by
  simp [setTok]

theorem normGo_length (h : List TokenRec) (l : List Nat) (base : Nat) :
    (normGo h l base).length = h.length := by
  induction l generalizing h base with
  | nil => rfl
  | cons x xs ih => simp [normGo, ih, setTok_length]

theorem normGo_not_mem (h : List TokenRec) (l : List Nat)
    (base tid : Nat) (hnm : tid ∉ l) :
    getTok (normGo h l base) tid = getTok h tid := by
  induction l generalizing h base with
  | nil => rfl
  | cons x xs ih =>
    have hx : x ≠ tid := by
      intro e
      apply hnm
      rw [← e]
      exact List.mem_cons_self x xs
    have hxs : tid ∉ xs := by
      intro e
      exact hnm (List.mem_cons_of_mem _ e)
    simp only [normGo]
    rw [ih _ _ hxs, getTok_setTok_ne _ _ _ _ hx]

/-- The position-normalization loop assigns to a token the index of its
LAST occurrence; in particular, a token id that does not occur again
after its index `i` ends up with position `base + i`. -/
theorem normGo_get (h : List TokenRec) (l : List Nat) (i base tid : Nat)
    (hget : l.get? i = some tid) (hnm : tid ∉ l.drop (i + 1))
    (hid : tid < h.length) :
    (getTok (normGo h l base) tid).position = base + i := by
  induction l generalizing h base i with
  | nil => simp at hget
  | cons x xs ih =>
    cases i with
    | zero =>
      simp only [List.get?] at hget
      injection hget with hget
      rw [← hget] at hid hnm ⊢
      have hxs : x ∉ xs := hnm
      simp only [normGo]
      rw [normGo_not_mem _ _ _ _ hxs, getTok_setTok_self _ _ _ hid]
      simp
    | succ j =>
      simp only [normGo]
      have hget' : xs.get? j = some tid := hget
      have hnm' : tid ∉ xs.drop (j + 1) := hnm
      have hid' : tid < (setTok h x
          { getTok h x with position := base }).length := by
        simpa [setTok_length] using hid
      rw [ih _ j (base + 1) hget' hnm' hid']
      omega

/-!  Sanity checks of the embedding on concrete values. -/

example : tyEq INT INT = true := by decide
example : tyEq INT CHAR = false := by decide
example : tyEq (ptrIdx ANY) (ptrIdx CHAR) = true := by decide
example : tyEq (ptrIdx ANY) INT = false := by decide
example : StrToType "int" = some INT := by decide
example : StrToType "int**" = some (ptrIdx (ptrIdx INT)) := by decide
example : StrToType "byte*" = some (ptrIdx CHAR) := by decide
example : StrToType "float" = none := by decide
example : parse_tokens noFiles 100 c6lex [] = .ok c6parsedSt := by decide

/-!  The claim theorems. -/

/-- C1: the claim states that `BAND`/`BOR`/`BXOR` accept exactly
`(INT,INT)`, `(CHAR,CHAR)` and `(BOOL,BOOL)` and push `INT`, `CHAR` and
`BOOL` respectively.  The case lists in the code (typechecker.py lines
349-383) are in that order, but the pushes for cases 1 and 2 are
transposed: the `(CHAR,CHAR)` case pushes `BOOL` and the `(BOOL,BOOL)`
case pushes `CHAR`, for all three operators; `(INT,INT)` pushes `INT`
as claimed, and a mixed combination is rejected.  This theorem
evaluates the embedded checker on each combination. -/
theorem C1_bitwise_case_pushes :
    (tcStep [] { stack := [(dummyTok, INT), (dummyTok, INT)] }
        { type := .OP_BAND, info := 9 } =
      .ok { stack := [({ type := .OP_BAND, info := 9 }, INT)] }) ∧
    (tcStep [] { stack := [(dummyTok, CHAR), (dummyTok, CHAR)] }
        { type := .OP_BAND, info := 9 } =
      .ok { stack := [({ type := .OP_BAND, info := 9 }, BOOL)] }) ∧
    (tcStep [] { stack := [(dummyTok, BOOL), (dummyTok, BOOL)] }
        { type := .OP_BAND, info := 9 } =
      .ok { stack := [({ type := .OP_BAND, info := 9 }, CHAR)] }) ∧
    (tcStep [] { stack := [(dummyTok, INT), (dummyTok, INT)] }
        { type := .OP_BOR, info := 9 } =
      .ok { stack := [({ type := .OP_BOR, info := 9 }, INT)] }) ∧
    (tcStep [] { stack := [(dummyTok, CHAR), (dummyTok, CHAR)] }
        { type := .OP_BOR, info := 9 } =
      .ok { stack := [({ type := .OP_BOR, info := 9 }, BOOL)] }) ∧
    (tcStep [] { stack := [(dummyTok, BOOL), (dummyTok, BOOL)] }
        { type := .OP_BOR, info := 9 } =
      .ok { stack := [({ type := .OP_BOR, info := 9 }, CHAR)] }) ∧
    (tcStep [] { stack := [(dummyTok, INT), (dummyTok, INT)] }
        { type := .OP_BXOR, info := 9 } =
      .ok { stack := [({ type := .OP_BXOR, info := 9 }, INT)] }) ∧
    (tcStep [] { stack := [(dummyTok, CHAR), (dummyTok, CHAR)] }
        { type := .OP_BXOR, info := 9 } =
      .ok { stack := [({ type := .OP_BXOR, info := 9 }, BOOL)] }) ∧
    (tcStep [] { stack := [(dummyTok, BOOL), (dummyTok, BOOL)] }
        { type := .OP_BXOR, info := 9 } =
      .ok { stack := [({ type := .OP_BXOR, info := 9 }, CHAR)] }) ∧
    (tcStep [] { stack := [(dummyTok, BOOL), (dummyTok, INT)] }
        { type := .OP_BAND, info := 9 } =
      .error (.InvalidType 0 (.TypeCheckerException 9))) := by
  decide

/-- C2: the claim states `deref(PTR[T]) = T` for every `T`, failure on
non-pointers, and hence that `LOAD*` pops `PTR[T]` and pushes `T`.
Over the spec's representation of pointer types (`PTR[T]` is a `Type`
whose `parent` is `T`), the source `derefType` removes the DEEPEST
element of the parent chain and returns the modified root, so
`deref(PTR[INT])` is the bare `PTR` type (not `INT`),
`deref(PTR[PTR[INT]])` is `PTR[PTR]` (not `PTR[INT]`), and
`deref(PTR[ANY])` raises `ValueError` because the guard `p == n` uses
the `ANY`-wildcard equality; consequently `LOAD` on a `PTR[INT]` pushes
bare `PTR`.  Only the non-pointer half of the claim holds. -/
theorem C2_derefType_behaviour :
    derefType (ptrIdx INT) = .ok PTR ∧
    tyEq PTR INT = false ∧ PTR ≠ INT ∧
    derefType (ptrIdx (ptrIdx INT)) = .ok (ptrIdx PTR) ∧
    ptrIdx PTR ≠ ptrIdx INT ∧
    derefType (ptrIdx ANY) = .error .ValueError ∧
    derefType INT = .error .ValueError ∧
    (tcStep [] { stack := [(dummyTok, ptrIdx INT)] }
        { type := .OP_LOAD, info := 3 } =
      .ok { stack := [({ type := .OP_LOAD, info := 3 }, PTR)] }) := by
  decide

/-- C3: the claim states that a `WORD` naming a `MEMORY` symbol expands
to the stored `PUSHMEMORY` token, which the type checker types as
`PTR[ANY]`.  In the code, `parse_memory` stores the `memory` OPENER
token (kind `PreprocTypes.MEMORY`) as the symbol data and `match_word`
re-emits exactly that token, which no arm of the type checker matches,
so the checker raises `RuntimeError`; the `PUSHMEMORY` constructor of
lang.py line 147 is never called.  A token of kind `OP_PUSHMEMORY`
would indeed be typed `PTR[ANY]`, as the last conjunct shows.  This
theorem runs the pipeline on `memory m 1 end m`. -/
theorem C3_memory_symbol_reference :
    ((parse_tokens noFiles 100 c3lex []).map
        (fun st => (st.instructions, dictGet st.symbols "m")) =
      .ok ([0], some ⟨.MEMORY, .one 0⟩)) ∧
    ((parse_tokens noFiles 100 c3lex []).map
        (fun st => st.instructions.map (fun i => (getTok st.heap i).type)) =
      .ok [.MEMORY]) ∧
    corePipeline noFiles 100 c3lex = .error .RuntimeError ∧
    (tcStep [] {} { type := .OP_PUSHMEMORY, value := .vstr "m", info := 4 } =
      .ok { stack := [({ type := .OP_PUSHMEMORY, value := .vstr "m",
                         info := 4 }, ptrIdx ANY)] }) := by
  decide

/-- C4 counterexample: the program `1 2 > if 10 dump else 20 dump end 0
exit` is NOT accepted by the core pipeline: the type checker rejects it
with `StackNotEmpty` at the `>` token (span id 2), because the if-chain
has no `do` and the comparison's `BOOL` is never consumed. -/
theorem C4_counterexample :
    corePipeline noFiles 100 c4lex = .error (.StackNotEmpty 2) := by
  decide

/-- C4 as amended: lexing, parsing and flow resolution of `1 2 > if 10
dump else 20 dump end 0 exit` complete without error, but the type
checker rejects the program with `StackNotEmpty` at the `>` token,
whose `BOOL` result is never consumed (the if-chain has no `do`). -/
theorem C4_amended_behaviour :
    (parse_tokens noFiles 100 c4lex []).toOption.isSome = true ∧
    corePipeline noFiles 100 c4lex = .error (.StackNotEmpty 2) := by
  decide

/-- C5 counterexample: in the state right after `include
"nonexistent.sl"` has been added (INCLUDE token span 0, STRING token
span 1) with no matching file, `expand` raises `FileError` carrying
span 1 — the STRING token's span, not the INCLUDE token's span 0
claimed by the spec (`raise FileError(token.info, ...)` at lang.py line
418 uses the current token of the `(prev, token)` match, which is the
string). -/
theorem C5_counterexample :
    expandStep noFiles c5st 1 = .error (.FileError 1) ∧
    (getTok c5st.heap 0).type = .INCLUDE ∧
    (getTok c5st.heap 0).info = 0 ∧
    (getTok c5st.heap 1).type = .OP_STRING ∧
    (getTok c5st.heap 1).info = 1 := by
  decide

/-- C5 as amended: when an `INCLUDE` token is followed by a `STRING`
token, both tokens are removed from the instruction list and the
position counter is decremented by two; if no file matching the string
is found on the include search path, a `FileError` is raised whose
primary span is the STRING token's span (not the INCLUDE's). -/
theorem C5_include_expansion (files : String → Option (List LexTok))
    (st : PState) (pid tid x y : Nat) (l : List Nat)
    (hprev : st.prevExp = some pid)
    (hpt : (getTok st.heap pid).type = .INCLUDE)
    (htt : (getTok st.heap tid).type = .OP_STRING)
    (hin : st.instructions = l ++ [x, y]) :
    (search_path files st.includes (pyKey (getTok st.heap tid).value) =
        none →
      expandStep files st tid =
        .error (.FileError (getTok st.heap tid).info)) ∧
    (∀ ts,
      search_path files st.includes (pyKey (getTok st.heap tid).value) =
          some ts →
      expandStep files st tid =
        .ok (some ts, { st with instructions := l, pos := st.pos - 2,
                                prevExp := some tid })) := by
  have hne1 : (l ++ [x, y]).isEmpty = false := by
    cases l <;> simp [List.isEmpty]
  have hdl1 : (l ++ [x, y]).dropLast = l ++ [x] := by
    have hxy : l ++ [x, y] = (l ++ [x]) ++ [y] := by simp
    rw [hxy, List.dropLast_concat]
  have hne2 : (l ++ [x]).isEmpty = false := by
    cases l <;> simp [List.isEmpty]
  have hpop1 : pyPopLast st.instructions = .ok (l ++ [x]) := by
    rw [hin]
    simp [pyPopLast, hne1, hdl1]
  have hpop2 : pyPopLast (l ++ [x]) = .ok l := by
    simp [pyPopLast, hne2, List.dropLast_concat]
  constructor
  · intro hs
    simp [expandStep, hprev, hpt, htt, hpop1, hpop2, hs,
          except_bind_ok, except_bind_error, except_throw, except_pure]
  · intro ts hs
    simp [expandStep, hprev, hpt, htt, hpop1, hpop2, hs,
          except_bind_ok, except_bind_error, except_throw, except_pure]

/-- C5 witness: the general theorem applied to the concrete
`include "nonexistent.sl"` state with an empty filesystem. -/
theorem C5_include_expansion_witness :
    expandStep noFiles c5st 1 = .error (.FileError 1) :=
  (C5_include_expansion noFiles c5st 0 1 0 1 [] rfl rfl rfl rfl).1 rfl

/-- C6: after the last instruction the checker raises `StackNotEmpty`
exactly when the abstract stack is non-empty, and the error's span is
the origin token of the topmost residual value; the program `1 2 +` is
rejected with `StackNotEmpty` at the `+` token (span 2), whose result
is the residual value. -/
theorem C6_stack_not_empty_iff (st : TCSt) :
    (st.stack = [] → tcEnd st = .ok ()) ∧
    (∀ t ty r, st.stack = (t, ty) :: r →
      tcEnd st = .error (.StackNotEmpty t.info)) ∧
    corePipeline noFiles 100 c6lex = .error (.StackNotEmpty 2) := by
  refine ⟨fun hs => ?_, fun t ty r hs => ?_, by decide⟩
  · simp [tcEnd, hs]
  · simp [tcEnd, hs]

/-- C6 witness. -/
theorem C6_stack_not_empty_iff_witness :
    tcEnd {} = .ok () ∧
    tcEnd { stack := [(dummyTok, INT)] } = .error (.StackNotEmpty 0) :=
  ⟨(C6_stack_not_empty_iff {}).1 rfl,
   (C6_stack_not_empty_iff { stack := [(dummyTok, INT)] }).2.1
     dummyTok INT [] rfl⟩

/-- C7 counterexample: the program `memory m 1 end m m` parses
successfully, and its final instruction list is `[0, 0]` — the stored
memory opener token re-emitted twice.  After re-normalization the
shared token's position is 1 (its LAST index), so the token at index 0
has position 1 ≠ 0, refuting `token[i].position == i` exactly in the
symbol-expansion case the claim includes. -/
theorem C7_counterexample :
    (parse_tokens noFiles 100 c7lex []).map
        (fun st => (st.instructions,
                    st.instructions.map (fun i => (getTok st.heap i).position))) =
      .ok ([0, 0], [1, 1]) := by
  decide

/-- C7 as amended: after `parse_tokens` returns, the token at index `i`
has `position = i` provided its token object does not occur again at a
later index; a token emitted at several indices (such as a memory
symbol referenced twice) ends up with the position of its last
occurrence. -/
theorem C7_positions_normalized (files : String → Option (List LexTok))
    (fuel : Nat) (lexed : List LexTok) (inc : List String) (st : PState)
    (hp : parse_tokens files fuel lexed inc = .ok st)
    (i tid : Nat) (hget : st.instructions.get? i = some tid)
    (hlast : tid ∉ st.instructions.drop (i + 1))
    (hid : tid < st.heap.length) :
    (getTok st.heap tid).position = i := by
  unfold parse_tokens at hp
  cases h1 : parseLoop files fuel lexed { includes := inc } with
  | error e => rw [h1] at hp; simp [except_bind_error] at hp
  | ok st' =>
    rw [h1] at hp
    cases h2 : flowEnd st' with
    | error e =>
      rw [except_bind_ok] at hp
      rw [h2] at hp
      simp [except_bind_error] at hp
    | ok u =>
      rw [except_bind_ok] at hp
      rw [h2] at hp
      simp [except_bind_ok] at hp
      subst hp
      simp only at hget hlast hid ⊢
      rw [normGo_length] at hid
      have := normGo_get st'.heap st'.instructions i 0 tid hget hlast hid
      simpa using this

/-- C7 witness: the general theorem applied to the parse of `1 2 +`,
whose instruction list has no duplicates. -/
theorem C7_positions_normalized_witness :
    (getTok c6parsedSt.heap 2).position = 2 :=
  C7_positions_normalized noFiles 100 c6lex [] c6parsedSt (by decide)
    2 2 (by decide) (by decide) (by decide)

/-- C8: installing a macro, procedure or memory declaration under a
name already present in the symbol table raises `SymbolRedefined`
instead of overwriting: the guards of `parse_macro` (lang.py lines
435-437), `parse_memory` (lines 493-494) and `parse_proc` (lines
461-462 for a name already rewritten to `CALL`, lines 466-467 for a
name in the table); a macro installs only when the name is absent. -/
theorem C8_symbol_redefined :
    (∀ (st : PState) (t0 t1 : Nat) (rest : List Nat),
      (getTok st.heap t1).type = .OP_WORD →
      (dictGet st.symbols (getTok st.heap t1).infoStr).isSome = true →
      parseMacro st (t0 :: t1 :: rest) =
        .error (.SymbolRedefined (getTok st.heap t1).info)) ∧
    (∀ (st : PState) (t0 t1 : Nat) (rest : List Nat) (fd : FlowData),
      (getTok st.heap t0).value = .vflow fd →
      (getTok st.heap t1).type = .OP_WORD →
      (dictGet st.symbols (getTok st.heap t1).infoStr).isSome = true →
      parse_memory st (t0 :: t1 :: rest) =
        .error (.SymbolRedefined (getTok st.heap t1).info)) ∧
    parse_proc c8st 0 3 = .error (.SymbolRedefined 11) ∧
    parse_proc c8stCall 0 3 = .error (.SymbolRedefined 11) ∧
    (∀ (st : PState) (t0 t1 : Nat) (rest : List Nat),
      (getTok st.heap t1).type = .OP_WORD →
      dictGet st.symbols (getTok st.heap t1).infoStr = none →
      parseMacro st (t0 :: t1 :: rest) =
        .ok { st with
               symbols := dictSet st.symbols (getTok st.heap t1).infoStr
                            ⟨.MACRO, .many rest⟩ }) := by
  refine ⟨fun st t0 t1 rest h1 h2 => ?_,
          fun st t0 t1 rest fd h0 h1 h2 => ?_,
          by decide, by decide,
          fun st t0 t1 rest h1 h2 => ?_⟩
  · simp [parseMacro, pyGetN, h1, h2,
          except_bind_ok, except_bind_error, except_throw, except_pure]
  · simp [parse_memory, pyGetN, h0, h1, h2,
          except_bind_ok, except_bind_error, except_throw, except_pure]
  · simp [parseMacro, pyGetN, h1, h2,
          except_bind_ok, except_bind_error, except_throw, except_pure]

/-- C8 witness: `parse_macro` on a region whose name is already bound. -/
theorem C8_symbol_redefined_witness :
    parseMacro c8st [0, 1, 2, 3] = .error (.SymbolRedefined 11) :=
  C8_symbol_redefined.1 c8st 0 1 [2, 3] (by decide) (by decide)

/-- C9: the keyword `swap2` resolves to an `OP_SWAP2` token, and no arm
of the type checker matches `OP_SWAP2` — the second arm written for it
(typechecker.py lines 236-245) repeats the `Intrinsics.OP_SWAP` pattern
of the first arm and is dead — so the token always reaches the
catch-all and the checker raises `RuntimeError`, never performing the
four-element transformation, whatever the state. -/
theorem C9_swap2_unreachable :
    keywordToken "swap2" 5 =
      some { type := .OP_SWAP2, info := 5, infoStr := "swap2" } ∧
    (∀ (h : List TokenRec) (st : TCSt) (t : TokenRec),
      t.type = .OP_SWAP2 → tcStep h st t = .error .RuntimeError) := by
  constructor
  · decide
  · intro h st t ht
    cases t with
    | mk tt v i s p =>
      have ht' : tt = .OP_SWAP2 := ht
      subst ht'
      rfl

/-- C9 witness. -/
theorem C9_swap2_unreachable_witness :
    tcStep [] {} { type := .OP_SWAP2 } = .error .RuntimeError :=
  C9_swap2_unreachable.2 [] {} { type := .OP_SWAP2 } rfl

/-- C10: the `CAST` arm (typechecker.py lines 613-615) pops without a
preceding `check_length`, so on an empty abstract stack the failure is
a raw `IndexError` — outside the language error family — instead of the
`NotEnoughTokens` diagnostic used by the guarded stack-consuming
operations. -/
theorem C10_cast_indexerror :
    (∀ (h : List TokenRec) (st : TCSt) (t : TokenRec),
      t.type = .CAST → st.stack = [] →
      tcStep h st t = .error .IndexError) ∧
    isLangExceptions .IndexError = false ∧
    isLangExceptions (.NotEnoughTokens 0) = true := by
  refine ⟨fun h st t ht hs => ?_, by decide, by decide⟩
  cases t with
  | mk tt v i s p =>
    have ht' : tt = .CAST := ht
    subst ht'
    cases st with
    | mk stk bs os lo pr =>
      have hs' : stk = [] := hs
      subst hs'
      rfl

/-- C10 witness. -/
theorem C10_cast_indexerror_witness :
    tcStep [] {} { type := .CAST, value := .vty INT } =
      .error .IndexError :=
  C10_cast_indexerror.1 [] {} { type := .CAST, value := .vty INT }
    rfl rfl

end PyStackLang
